import Mathlib

/-!
# Improved Console: the command result printer

A shallow embedding of `gary_plugin/command_printer.cpp`.

* A `double` is carried as its 64-bit IEEE-754 encoding, a natural number below `2^64`.
* The process-wide globals, the console, the log and the sequence of registry queries form
  one explicit `State`; every routine of the source is a function on that state.
* The host's registries and the C runtime's `%.2f` conversion are the fields of `Host`.
-/

namespace ImprovedConsole

/-! ## Machine values -/

/-- Biased exponent field (11 bits) of a double's encoding. -/
def doubleExponent (bits : Nat) : Nat := (bits / 2 ^ 52) % 2 ^ 11

/-- Fraction field (52 bits) of a double's encoding. -/
def doubleMantissa (bits : Nat) : Nat := bits % 2 ^ 52

/-- Sign bit of a double's encoding. -/
def doubleSign (bits : Nat) : Nat := (bits / 2 ^ 63) % 2

/-- The test `std::isnan`: all exponent bits set and a non-zero fraction. -/
def isnan (bits : Nat) : Bool :=
  doubleExponent bits == 2047 && doubleMantissa bits != 0

/-- The value `std::numeric_limits<double>::quiet_NaN()`. -/
def quiet_NaN : Nat := 0x7FF8000000000000

/-- The read `*reinterpret_cast<UInt32*>(&value)`: on the little-endian x86 target this is
the low dword of the encoding. -/
def reinterpretUInt32 (bits : Nat) : Nat := bits % 2 ^ 32

/-- The conversion `static_cast<UInt32>(value)`: truncation of the numeric value toward zero.
For values in `[0, 2^32)` this is the integer part. Outside that range C++ leaves the
conversion undefined; the model takes the integer part modulo `2^32` (two's complement for
negative values) and `0` for magnitudes of `2^63` and above, infinities and NaN. -/
def castUInt32 (bits : Nat) : Nat :=
  let e := doubleExponent bits
  if e = 2047 then 0
  else if e < 1023 then 0
  else
    let m := 2 ^ 52 + doubleMantissa bits
    let mag := if 1075 ≤ e then m * 2 ^ (e - 1075) else m / 2 ^ (1075 - e)
    if 2 ^ 63 ≤ mag then 0
    else if doubleSign bits = 0 then mag % 2 ^ 32
    else (2 ^ 32 - mag % 2 ^ 32) % 2 ^ 32

/-- Value of a 32-bit pattern read as a C `int`. -/
def toInt32 (n : Nat) : Int :=
  if n % 2 ^ 32 < 2 ^ 31 then ((n % 2 ^ 32 : Nat) : Int) else ((n % 2 ^ 32 : Nat) : Int) - 2 ^ 32

/-! ## Text conversions -/

/-- The conversion `%d` of printf. -/
def fmtD (i : Int) : String :=
  match i with
  | Int.ofNat m => toString m
  | Int.negSucc m => "-" ++ toString (m + 1)

/-- Upper-case form of a hexadecimal digit character. -/
def upperHexChar (c : Char) : Char :=
  if c = 'a' then 'A'
  else if c = 'b' then 'B'
  else if c = 'c' then 'C'
  else if c = 'd' then 'D'
  else if c = 'e' then 'E'
  else if c = 'f' then 'F'
  else c

/-- The conversion `%X` of printf on a `UInt32`: upper-case hexadecimal, no padding. -/
def fmtX (n : Nat) : String := String.mk ((Nat.toDigits 16 (n % 2 ^ 32)).map upperHexChar)

/-- Stream insertion of a `UInt32` under `std::hex`: lower-case hexadecimal, no padding. -/
def fmtHex (n : Nat) : String := String.mk (Nat.toDigits 16 (n % 2 ^ 32))

/-- Stream insertion of a `UInt32` in the default (decimal) base. -/
def fmtU (n : Nat) : String := toString (n % 2 ^ 32)

/-! ## Data model -/

/-- The enumeration `CommandReturnType`. Its declaration is in a header outside the
translated file; the named members are those the source mentions, and `other` stands for a
tag value that is none of them (the source obtains the tag by `static_cast`). -/
inductive CommandReturnType where
  | kRetnType_Default
  | kRetnType_Form
  | kRetnType_String
  | kRetnType_Array
  | kRetnType_ArrayIndex
  | kRetnType_Ambiguous
  | kRetnType_Max
  | other (tag : Nat)
  deriving DecidableEq, Repr

export CommandReturnType (kRetnType_Default kRetnType_Form kRetnType_String kRetnType_Array
  kRetnType_ArrayIndex kRetnType_Ambiguous kRetnType_Max)

/-- A form as the printer sees it: `refID`, the text returned by `GetName()` (the editor
id) and the text returned by `GetFullName(form)` (the display name). -/
structure TESForm where
  refID : Nat
  editorId : String
  fullName : String
  deriving DecidableEq, Repr

/-- A command's metadata as far as the printer reads it. -/
structure CommandInfo where
  longName : String
  deriving DecidableEq, Repr

/-- An array element (`NVSEArrayVarInterface::Element`), tagged by `GetType()`. A numeric
element carries a double's encoding, a form element the form it points to (`FormatElement`
dereferences it without a null check), an array element the nested array's handle. -/
inductive Element where
  | kDataType_Numeric (number : Nat)
  | kDataType_Form (form : TESForm)
  | kDataType_String (string : String)
  | kDataType_Array (array : Nat)
  | kDataType_Invalid
  deriving DecidableEq, Repr

/-- A resolved array: its key/value pairs in the array's enumeration order. The count is
read into a C `int`; arrays of a 32-bit process hold fewer than `2^31` elements. -/
structure NVSEArrayVar where
  elems : List (Element × Element)
  size_lt : elems.length < 2 ^ 31

/-- A query made to one of the host's registries. -/
inductive HostCall where
  | lookupForm (formId : Nat)
  | getStringVar (stringId : Nat)
  | lookupArray (arrayId : Nat)
  deriving DecidableEq, Repr

/-- The external collaborators: the form registry, the string-variable table, the array
registry, the command table's declared return types, and the C runtime's rendering of a
double with two decimals (`%.2f`, and `std::fixed` with `setprecision(2)`). -/
structure Host where
  forms : Nat → Option TESForm
  strings : Nat → String
  arrays : Nat → Option NVSEArrayVar
  returnTypes : CommandInfo → CommandReturnType
  fixed2 : Nat → String

/-- The globals of the translation unit, together with the console's lines, the log's
lines and the registry queries made so far (each in order of occurrence).
`g_commandPrints` holds the 32-bit pattern of the C `int`: the source only increments it,
sets it to zero and compares it with zero. -/
structure State where
  g_lastResultValue : Nat
  g_lastReturnType : CommandReturnType
  g_commandWasFunction : Bool
  g_lastCommandWasSet : Bool
  g_commandPrints : Nat
  g_cmdCalled : Bool
  console : List String
  log : List String
  hostCalls : List HostCall
  deriving DecidableEq, Repr

/-- The globals as initialised at load time, with nothing printed, logged or queried. -/
def State.initial : State where
  g_lastResultValue := 0
  g_lastReturnType := kRetnType_Ambiguous
  g_commandWasFunction := false
  g_lastCommandWasSet := false
  g_commandPrints := 0
  g_cmdCalled := false
  console := []
  log := []
  hostCalls := []

/-! ## External primitives -/

/-- The routine `HookConsolePrint`: `inc g_commandPrints` on a dword. `PatchPrintAnything`
redirects the console's print routine to it, so that every printed line is counted. -/
def HookConsolePrint (s : State) : State :=
  { s with g_commandPrints := (s.g_commandPrints + 1) % 2 ^ 32 }

/-- The sink `Console_Print`, given the already formatted line: the line goes to the
console, and the console's print routine returns through the installed redirection
`HookConsolePrint`, which counts it. -/
def Console_Print (line : String) (s : State) : State :=
  HookConsolePrint { s with console := s.console ++ [line] }

/-- The sink `PrintLog`. -/
def PrintLog (msg : String) (s : State) : State :=
  { s with log := s.log ++ [msg] }

/-- The registry query `LookupFormByID`. -/
def LookupFormByID (h : Host) (formId : Nat) (s : State) : Option TESForm × State :=
  (h.forms formId, { s with hostCalls := s.hostCalls ++ [HostCall.lookupForm formId] })

/-- The string-table query `GetStringVar`. -/
def GetStringVar (h : Host) (stringId : Nat) (s : State) : String × State :=
  (h.strings stringId, { s with hostCalls := s.hostCalls ++ [HostCall.getStringVar stringId] })

/-- The registry query `LookupArrayByID`. -/
def LookupArrayByID (h : Host) (arrayId : Nat) (s : State) : Option NVSEArrayVar × State :=
  (h.arrays arrayId, { s with hostCalls := s.hostCalls ++ [HostCall.lookupArray arrayId] })

/-- The command-table query `GetCmdReturnType`. -/
def GetCmdReturnType (h : Host) (commandInfo : CommandInfo) : CommandReturnType :=
  h.returnTypes commandInfo

/-- The query `GetArraySize`. -/
def GetArraySize (arrayPtr : NVSEArrayVar) : Nat := arrayPtr.elems.length

/-- The query `GetElements`: the values and the keys, index by index. -/
def GetElements (arrayPtr : NVSEArrayVar) : List Element × List Element :=
  (arrayPtr.elems.map Prod.snd, arrayPtr.elems.map Prod.fst)

/-! ## The printer -/

/-- The function `FormatElement`. -/
def FormatElement (h : Host) (element : Element) : String :=
  match element with
  | Element.kDataType_Numeric number => h.fixed2 number
  | Element.kDataType_Form form =>
    let stream := "(FormID: " ++ fmtHex form.refID
    let stream := if form.editorId.length > 0 then stream ++ ", EditorID: " ++ form.editorId
      else stream
    let stream := if form.fullName.length > 0 then stream ++ ", Name: " ++ form.fullName
      else stream
    stream ++ ")"
  | Element.kDataType_String string => "\"" ++ string ++ "\""
  | Element.kDataType_Array array => "Array (ID " ++ fmtU array ++ ")"
  | Element.kDataType_Invalid => "Invalid"

/-- The loop of `PrintArray` over the indices `0 .. size - 1`, taking `keys[i]` and
`values[i]` together. -/
def PrintArray.loop (h : Host) : List (Element × Element) → State → State
  | [], s => s
  | (key, value) :: rest, s =>
    let keyStr := FormatElement h key
    let valStr := FormatElement h value
    PrintArray.loop h rest (Console_Print ("(Key) >> " ++ keyStr ++ "; (Value) >> " ++ valStr) s)

/-- The overload `PrintArray(NVSEArrayVar* arrayPtr)`; `none` is the null pointer. -/
def PrintArray (h : Host) (arrayPtr : Option NVSEArrayVar) (s : State) : State :=
  match arrayPtr with
  | none => Console_Print "Invalid array" s
  | some arr =>
    let size : Int := toInt32 (GetArraySize arr)
    if size = 0 then Console_Print "Empty array" s
    else
      let (values, keys) := GetElements arr
      let s := PrintArray.loop h (List.zip keys values) s
      Console_Print ("Array Size >> " ++ fmtD size) s

/-- The overload `PrintArray(UInt32 arrayId)`. -/
def PrintArrayById (h : Host) (arrayId : Nat) (s : State) : State :=
  let (arrayPtr, s) := LookupArrayByID h arrayId s
  PrintArray h arrayPtr s

/-- The overload `PrintForm(TESForm* form)`; `none` is the null pointer. -/
def PrintForm (form : Option TESForm) (s : State) : State :=
  match form with
  | none => Console_Print "Invalid Form" s
  | some form =>
    let s := Console_Print ("(Form ID) >> " ++ fmtX form.refID) s
    let editorId := form.editorId
    let fullName := form.fullName
    let s := if editorId.length > 0 then Console_Print ("(Editor ID) >> " ++ editorId) s else s
    if fullName.length > 0 ∧ fullName ≠ "<no name>" then
      Console_Print ("(Name) >> " ++ fullName) s
    else s

/-- The overload `PrintForm(const UInt32 formId)`. -/
def PrintFormById (h : Host) (formId : Nat) (s : State) : State :=
  let (form, s) := LookupFormByID h formId s
  PrintForm form s

/-- The function `PrintFloat`. -/
def PrintFloat (h : Host) (value : Nat) (s : State) : State :=
  Console_Print ("(Float) >> " ++ h.fixed2 value) s

/-- The function `PrintString`. -/
def PrintString (stringVar : String) (s : State) : State :=
  Console_Print ("(String) >> \"" ++ stringVar ++ "\"") s

/-- The function `PrintUnknown`; the `UInt32` is printed with `%d`. -/
def PrintUnknown (h : Host) (value : Nat) (s : State) : State :=
  let formId := reinterpretUInt32 value
  Console_Print ("(Unknown) >> " ++ h.fixed2 value ++ " / " ++ fmtD (toInt32 formId)) s

/-- The function `PrintVar`. -/
def PrintVar (h : Host) (value : Nat) (type : CommandReturnType) (s : State) : State :=
  match type with
  | kRetnType_Default => PrintFloat h value s
  | kRetnType_Form =>
    let formId := reinterpretUInt32 value
    PrintFormById h formId s
  | kRetnType_String =>
    let (stringVar, s) := GetStringVar h (castUInt32 value) s
    PrintString stringVar s
  | kRetnType_Array =>
    let arrayId := castUInt32 value
    PrintArrayById h arrayId s
  | kRetnType_ArrayIndex => PrintUnknown h value s
  | kRetnType_Ambiguous => PrintUnknown h value s
  | kRetnType_Max => PrintUnknown h value s
  | CommandReturnType.other _ => PrintUnknown h value s

/-- The function `PrintResult`. -/
def PrintResult (h : Host) (commandInfo : CommandInfo) (result : Nat) (s : State) : State :=
  let returnType := GetCmdReturnType h commandInfo
  let s := { s with
    g_commandWasFunction := true
    g_lastReturnType := returnType
    g_lastCommandWasSet := false
    g_lastResultValue := result }
  if s.g_commandPrints ≠ 0 then
    PrintLog "something already printed, aborting" s
  else if isnan result then
    PrintLog "command did not change result value, aborting" s
  else
    let formId := reinterpretUInt32 result
    let (form, s) := LookupFormByID h formId s
    let returnType := if form.isSome then kRetnType_Form else returnType
    let s := Console_Print ("<Improved Console> " ++ commandInfo.longName) s
    PrintVar h result returnType s

/-- The function `PrintCommandResult`; `none` is a null `CommandInfo*`. The `ScriptRunner*`
argument is not read by the body and is left out. -/
def PrintCommandResult (h : Host) (commandResult : Nat) (commandInfo : Option CommandInfo)
    (s : State) : State :=
  let s := match commandInfo with
    | some info => PrintResult h info commandResult s
    | none => s
  { s with g_cmdCalled := false }

/-- The function `PreCommandCall(double* commandResult)`: takes the pointee's prior value
together with the state and returns the pointee's new value with the new state. -/
def PreCommandCall (_commandResult : Nat) (s : State) : Nat × State :=
  let s := { s with g_commandPrints := 0 }
  let commandResult := quiet_NaN
  let s := { s with g_cmdCalled := true }
  (commandResult, s)

/-! ## Element printing and indexed lookup -/

/-- The element as `PrintElement` receives it (`NVSEArrayElement`), tagged by `GetType()`.
`Form()` and `Array()` are pointers that `PrintElement` hands to `PrintForm` and
`PrintArray`, which test them against null: `none` is the null pointer, `some` a pointer
to the form, or to the array with the content the host reports for it (`GetArraySize`,
`GetElements`). `FormatElement`, in contrast, dereferences `Form()` unchecked and prints
`Array()` as a number, which is what `Element` carries. -/
inductive NVSEArrayElement where
  | kDataType_Numeric (number : Nat)
  | kDataType_Form (form : Option TESForm)
  | kDataType_String (string : String)
  | kDataType_Array (array : Option NVSEArrayVar)
  | kDataType_Invalid

/-- The function `PrintElement`. -/
def PrintElement (h : Host) (element : NVSEArrayElement) (s : State) : State :=
  match element with
  | NVSEArrayElement.kDataType_Numeric number => PrintFloat h number s
  | NVSEArrayElement.kDataType_Form form => PrintForm form s
  | NVSEArrayElement.kDataType_String string => PrintString string s
  | NVSEArrayElement.kDataType_Array array => PrintArray h array s
  | NVSEArrayElement.kDataType_Invalid => Console_Print "Invalid element" s

/-- The function `PrintArrayIndex`. The lookup `ConsoleArrays::GetElementAtIndex` is declared
outside the translated file and is taken as a parameter: it returns the element, or raises
`std::invalid_argument`, carried here as the error with the text of `what()`. The result
is the returned `bool` with the new state. -/
def PrintArrayIndex (h : Host)
    (GetElementAtIndex : String → String → Except String NVSEArrayElement)
    (varName index : String) (s : State) : Bool × State :=
  match GetElementAtIndex varName index with
  | Except.ok elem => (true, PrintElement h elem s)
  | Except.error what => (false, PrintLog what s)

/-! ## The variable synchronizer -/

/-- Whether a double is one of the two zeros. -/
def doubleIsZero (bits : Nat) : Bool :=
  doubleExponent bits == 0 && doubleMantissa bits == 0

/-- The comparison `a != b` on doubles: true when either side is NaN; otherwise false
exactly for identical encodings and for two zeros (of either sign). -/
def doubleNe (a b : Nat) : Bool :=
  isnan a || isnan b || (a != b && !(doubleIsZero a && doubleIsZero b))

/-- A tracked console variable: its id and its cached value. -/
structure ConsoleVar where
  id : Nat
  value : Nat
  deriving DecidableEq, Repr

/-- A script variable of a scope, as far as the synchronizer reads it. -/
structure ScriptVar where
  data : Nat
  deriving DecidableEq, Repr

/-- A script scope: `GetVariable` by id. The source dereferences the result without a
null check, so a scope is taken to hold every tracked id. -/
structure ScriptEventList where
  GetVariable : Nat → ScriptVar

/-- The routine `HookHandleVariableChanges`. The mapping `g_consoleVarIdMap` is owned by
another translation unit and is passed in and returned, as the list of its entries in
iteration order (key with the variable it points to). -/
def HookHandleVariableChanges (eventList : ScriptEventList)
    (g_consoleVarIdMap : List (Nat × ConsoleVar)) (s : State) :
    List (Nat × ConsoleVar) × State :=
  (g_consoleVarIdMap.map (fun consoleVarEntry =>
    let consoleVar := consoleVarEntry.2
    let eventListVar := eventList.GetVariable consoleVar.id
    if doubleNe consoleVar.value eventListVar.data then
      (consoleVarEntry.1, { consoleVar with value := eventListVar.data })
    else (consoleVarEntry.1, consoleVar)), s)

/-! ## The invocation as a step machine -/

/-- One event of an invocation, as the three redirections deliver it: pre-call arming,
a print observed during the call, and the post-call completion with the command's metadata
and the result read from the host's result slot. -/
inductive Step where
  | arm
  | observePrint
  | complete (commandInfo : Option CommandInfo) (commandResult : Nat)
  deriving DecidableEq, Repr

/-- One step of the tracker; the pair is the host's result slot and the globals. -/
def step (h : Host) (st : Nat × State) : Step → Nat × State
  | Step.arm => PreCommandCall st.1 st.2
  | Step.observePrint => (st.1, HookConsolePrint st.2)
  | Step.complete commandInfo commandResult =>
    (st.1, PrintCommandResult h commandResult commandInfo st.2)

/-- A trace of steps, run from left to right. -/
def run (h : Host) (steps : List Step) (st : Nat × State) : Nat × State :=
  steps.foldl (step h) st

/-! ## Observations -/

/-- The console lines that a run from `before` to `after` appended. -/
def emitted (before after : State) : List String :=
  after.console.drop before.console.length

/-- The registry queries that a run from `before` to `after` made. -/
def queried (before after : State) : List HostCall :=
  after.hostCalls.drop before.hostCalls.length

/-! ## Sample inputs -/

/-- A form with editor id `MyNPC` and an empty display name. -/
def sampleForm : TESForm := ⟨0x14, "MyNPC", ""⟩

/-- A one-pair array: a numeric key with a string value. -/
def sampleArray : NVSEArrayVar :=
  ⟨[(Element.kDataType_Numeric 0, Element.kDataType_String "a")], by decide⟩

/-- A host whose command table declares the type `T` for every command, with one live form
(handle `0x14`), one non-empty array (id `5`) and one empty array (id `6`). -/
def sampleHost (T : CommandReturnType) : Host where
  forms := fun formId => if formId = 0x14 then some sampleForm else none
  strings := fun _ => "text"
  arrays := fun arrayId =>
    if arrayId = 5 then some sampleArray
    else if arrayId = 6 then some ⟨[], by decide⟩
    else none
  returnTypes := fun _ => T
  fixed2 := fun bits => if bits = 0x4014000000000000 then "5.00" else "0.00"

/-- A command named `GetSelf`. -/
def sampleCommand : CommandInfo := ⟨"GetSelf"⟩

/-- A state in the middle of a session: earlier output on the console, a previous result
recorded, and two prints counted. -/
def sampleBusyState : State where
  g_lastResultValue := 0x4014000000000000
  g_lastReturnType := kRetnType_Default
  g_commandWasFunction := true
  g_lastCommandWasSet := false
  g_commandPrints := 2
  g_cmdCalled := true
  console := ["earlier line"]
  log := []
  hostCalls := [HostCall.lookupForm 7]

/-- A lookup that knows the variable `arr` with index `0` and rejects everything else. -/
def sampleLookup (varName index : String) : Except String NVSEArrayElement :=
  if varName = "arr" ∧ index = "0" then Except.ok (NVSEArrayElement.kDataType_String "a")
  else Except.error "invalid index"

/-- A scope in which variable `1` is `-0.0`, variable `2` is NaN and every other variable
is `5.0`. -/
def sampleScope : ScriptEventList where
  GetVariable := fun id =>
    if id = 1 then ⟨0x8000000000000000⟩
    else if id = 2 then ⟨quiet_NaN⟩
    else ⟨0x4014000000000000⟩

/-- Three tracked variables, each cached as `+0.0`. -/
def sampleVarMap : List (Nat × ConsoleVar) := [(10, ⟨1, 0⟩), (20, ⟨2, 0⟩), (30, ⟨3, 0⟩)]

/-! ## Auxiliary lemmas -/

theorem String_length_pos_iff (t : String) : t.length > 0 ↔ t ≠ "" := by
  rcases t with ⟨l⟩
  cases l with
  | nil => simp [String.length]
  | cons a l =>
    simp [String.length]
    intro hc
    exact absurd (congrArg String.data hc) (by simp)

theorem emitted_of_append {s t : State} {l : List String} (hc : t.console = s.console ++ l) :
    emitted s t = l := by
  simp [emitted, hc]

theorem queried_of_append {s t : State} {l : List HostCall}
    (hc : t.hostCalls = s.hostCalls ++ l) : queried s t = l := by
  simp [queried, hc]

theorem toInt32_of_lt {n : Nat} (hn : n < 2 ^ 31) : toInt32 n = (n : Int) := by
  have h1 : n % 2 ^ 32 = n := Nat.mod_eq_of_lt (by omega)
  unfold toInt32
  rw [h1, if_pos hn]

theorem fmtD_natCast (n : Nat) : fmtD (n : Int) = toString n := rfl

theorem zip_keys_values (l : List (Element × Element)) :
    List.zip (l.map Prod.fst) (l.map Prod.snd) = l := by
  induction l with
  | nil => rfl
  | cons a l ih => simp [ih]

theorem PrintArray_loop_console (h : Host) (l : List (Element × Element)) (s : State) :
    (PrintArray.loop h l s).console = s.console ++ l.map (fun kv =>
      "(Key) >> " ++ FormatElement h kv.1 ++ "; (Value) >> " ++ FormatElement h kv.2) := by
  induction l generalizing s with
  | nil => simp [PrintArray.loop]
  | cons a l ih =>
    obtain ⟨k, v⟩ := a
    simp [PrintArray.loop, ih, Console_Print, HookConsolePrint]

/-- The lines `PrintForm` appends do not depend on the state it starts from. -/
theorem PrintForm_console (form : Option TESForm) (s : State) :
    (PrintForm form s).console = s.console ++ (PrintForm form State.initial).console := by
  cases form with
  | none => simp [PrintForm, Console_Print, HookConsolePrint, State.initial]
  | some f =>
    simp only [PrintForm, Console_Print, HookConsolePrint, State.initial]
    split_ifs <;> simp

theorem PrintFormById_console (h : Host) (formId : Nat) (s : State) :
    (PrintFormById h formId s).console =
      s.console ++ (PrintForm (h.forms formId) State.initial).console := by
  simp only [PrintFormById, LookupFormByID]
  rw [PrintForm_console]

theorem PrintArray_console (h : Host) (arrayPtr : Option NVSEArrayVar) (s : State) :
    (PrintArray h arrayPtr s).console =
      s.console ++ (PrintArray h arrayPtr State.initial).console := by
  cases arrayPtr with
  | none => simp [PrintArray, Console_Print, HookConsolePrint, State.initial]
  | some arr =>
    simp only [PrintArray, Console_Print, HookConsolePrint, GetElements]
    split_ifs
    · simp [State.initial]
    · simp [PrintArray_loop_console, State.initial]

theorem PrintForm_console_ne_nil (form : Option TESForm) :
    (PrintForm form State.initial).console ≠ [] := by
  cases form with
  | none => simp [PrintForm, Console_Print, HookConsolePrint, State.initial]
  | some f =>
    simp only [PrintForm, Console_Print, HookConsolePrint, State.initial]
    split_ifs <;> simp

theorem PrintArray_console_ne_nil (h : Host) (arrayPtr : Option NVSEArrayVar) :
    (PrintArray h arrayPtr State.initial).console ≠ [] := by
  cases arrayPtr with
  | none => simp [PrintArray, Console_Print, HookConsolePrint, State.initial]
  | some arr =>
    simp only [PrintArray, Console_Print, HookConsolePrint]
    split_ifs <;> simp

/-- Every branch of `PrintVar` appends at least one console line. -/
theorem PrintVar_console_length (h : Host) (value : Nat) (type : CommandReturnType)
    (t : State) : t.console.length < (PrintVar h value type t).console.length := by
  have hform := PrintForm_console_ne_nil (h.forms (reinterpretUInt32 value))
  have harr := PrintArray_console_ne_nil h (h.arrays (castUInt32 value))
  cases type
  case kRetnType_Array =>
    simp only [PrintVar, PrintArrayById, LookupArrayByID]
    rw [PrintArray_console]
    simp [List.length_pos, harr]
  all_goals
    simp [PrintVar, PrintFloat, PrintString, PrintUnknown, Console_Print, HookConsolePrint, GetStringVar,
      PrintFormById_console, List.length_pos, hform]

/-- With a non-zero print count `PrintResult` returns at its first check. -/
theorem PrintResult_aborts_of_prints (h : Host) (commandInfo : CommandInfo) (result : Nat)
    (s : State) (hp : s.g_commandPrints ≠ 0) :
    (PrintResult h commandInfo result s).console = s.console ∧
    (PrintResult h commandInfo result s).hostCalls = s.hostCalls := by
  simp [PrintResult, hp, PrintLog]

/-- With a NaN result `PrintResult` returns at its first or its second check. -/
theorem PrintResult_aborts_of_nan (h : Host) (commandInfo : CommandInfo) (result : Nat)
    (s : State) (hnan : isnan result = true) :
    (PrintResult h commandInfo result s).console = s.console ∧
    (PrintResult h commandInfo result s).hostCalls = s.hostCalls := by
  by_cases hp : s.g_commandPrints = 0
  · simp [PrintResult, hp, hnan, PrintLog]
  · exact PrintResult_aborts_of_prints h commandInfo result s hp

/-! ## C1: override-wins -/

/-- C1. Override-wins: whatever type `T` the command table declares, when nothing was
printed during the call, the result `v` is not NaN and the low 32 bits of `v` resolve
to a live form, `PrintResult` hands the value to `PrintVar` with the type `Form`; the
console receives the header line followed by exactly the lines that `PrintForm` emits
for that handle. -/
theorem PrintResult_override_wins (h : Host) (commandInfo : CommandInfo)
    (T : CommandReturnType) (v : Nat) (s : State)
    (hT : GetCmdReturnType h commandInfo = T)
    (hprints : s.g_commandPrints = 0) (hnan : isnan v = false)
    (hlive : (LookupFormByID h (reinterpretUInt32 v) s).1 ≠ none) :
    (∃ pre : State,
        pre.console = s.console ++ ["<Improved Console> " ++ commandInfo.longName] ∧
        PrintResult h commandInfo v s = PrintVar h v kRetnType_Form pre) ∧
    emitted s (PrintResult h commandInfo v s) =
      ("<Improved Console> " ++ commandInfo.longName) ::
        emitted s (PrintFormById h (reinterpretUInt32 v) s) ∧
    (PrintResult h commandInfo v s).console =
      s.console ++ emitted s (PrintResult h commandInfo v s) := by
  have hsome : (h.forms (reinterpretUInt32 v)).isSome = true := by
    cases hf : h.forms (reinterpretUInt32 v) with
    | none => simp [LookupFormByID, hf] at hlive
    | some f => rfl
  have hcons : (PrintResult h commandInfo v s).console =
      s.console ++ ("<Improved Console> " ++ commandInfo.longName) ::
        (PrintForm (h.forms (reinterpretUInt32 v)) State.initial).console := by
    simp only [PrintResult, hprints, hnan, LookupFormByID, hsome, PrintVar]
    simp [PrintFormById_console, Console_Print, HookConsolePrint]
  have hform : emitted s (PrintFormById h (reinterpretUInt32 v) s) =
      (PrintForm (h.forms (reinterpretUInt32 v)) State.initial).console :=
    emitted_of_append (PrintFormById_console h _ s)
  have hem := emitted_of_append hcons
  refine ⟨⟨Console_Print ("<Improved Console> " ++ commandInfo.longName)
      (LookupFormByID h (reinterpretUInt32 v)
        { s with
          g_commandWasFunction := true
          g_lastReturnType := T
          g_lastCommandWasSet := false
          g_lastResultValue := v }).2, ?_, ?_⟩, ?_, ?_⟩
  · simp [Console_Print, HookConsolePrint, LookupFormByID]
  · subst hT
    simp only [PrintResult, hprints, hnan, LookupFormByID, hsome]
    simp
  · rw [hem, hform]
  · rw [hem, hcons]

/-- The override at a sample input: the table declares `String`, the raw value `0x14`
aliases the live form `0x14`. -/
theorem PrintResult_override_wins_witness :
    GetCmdReturnType (sampleHost kRetnType_String) sampleCommand = kRetnType_String ∧
    State.initial.g_commandPrints = 0 ∧ isnan 0x14 = false ∧
    (LookupFormByID (sampleHost kRetnType_String) (reinterpretUInt32 0x14) State.initial).1
      ≠ none ∧
    emitted State.initial (PrintResult (sampleHost kRetnType_String) sampleCommand 0x14
        State.initial) =
      ("<Improved Console> " ++ sampleCommand.longName) ::
        emitted State.initial
          (PrintFormById (sampleHost kRetnType_String) (reinterpretUInt32 0x14)
            State.initial) :=
  ⟨rfl, rfl, by decide, by decide,
    (PrintResult_override_wins (sampleHost kRetnType_String) sampleCommand kRetnType_String
      0x14 State.initial rfl rfl (by decide) (by decide)).2.1⟩

/-! ## C2: no duplicate print -/

/-- C2. No-duplicate: when the print count is greater than zero, `PrintResult` appends
nothing to the console (neither the header nor a value line), whatever the command, its
declared type and the raw result are. -/
theorem PrintResult_no_duplicate (h : Host) (commandInfo : CommandInfo) (result : Nat)
    (s : State) (hprints : 0 < s.g_commandPrints) :
    (PrintResult h commandInfo result s).console = s.console ∧
    emitted s (PrintResult h commandInfo result s) = [] := by
  have hc := (PrintResult_aborts_of_prints h commandInfo result s
    (Nat.pos_iff_ne_zero.mp hprints)).1
  exact ⟨hc, emitted_of_append (by simp [hc])⟩

/-- No duplicate at a sample input: two prints were counted, the result `0x14` is a valid
number that also aliases a live form. -/
theorem PrintResult_no_duplicate_witness :
    0 < sampleBusyState.g_commandPrints ∧
    (PrintResult (sampleHost kRetnType_Default) sampleCommand 0x14 sampleBusyState).console =
      sampleBusyState.console ∧
    emitted sampleBusyState
      (PrintResult (sampleHost kRetnType_Default) sampleCommand 0x14 sampleBusyState) = [] :=
  ⟨by decide,
    PrintResult_no_duplicate (sampleHost kRetnType_Default) sampleCommand 0x14 sampleBusyState
      (by decide)⟩

/-! ## C3: suppression of the NaN sentinel -/

/-- C3. Suppression: when the raw result is NaN, neither `PrintResult` nor
`PrintCommandResult` appends a console line or queries a registry, for every command
(null included for `PrintCommandResult`), declared type and print count; as `PrintVar`
always appends a line, it is not reached either. -/
theorem PrintResult_nan_suppressed (h : Host) (commandInfo : CommandInfo)
    (optInfo : Option CommandInfo) (result : Nat) (s : State) (hnan : isnan result = true) :
    ((PrintResult h commandInfo result s).console = s.console ∧
      (PrintResult h commandInfo result s).hostCalls = s.hostCalls) ∧
    ((PrintCommandResult h result optInfo s).console = s.console ∧
      (PrintCommandResult h result optInfo s).hostCalls = s.hostCalls) ∧
    (∀ (value : Nat) (type : CommandReturnType) (t : State),
      (PrintVar h value type t).console ≠ t.console) := by
  have hres : ∀ info : CommandInfo,
      (PrintResult h info result s).console = s.console ∧
      (PrintResult h info result s).hostCalls = s.hostCalls :=
    fun info => PrintResult_aborts_of_nan h info result s hnan
  refine ⟨hres commandInfo, ?_, ?_⟩
  · cases optInfo with
    | none => simp [PrintCommandResult]
    | some info => simpa [PrintCommandResult] using hres info
  · intro value type t hc
    have hlt := PrintVar_console_length h value type t
    rw [hc] at hlt
    exact Nat.lt_irrefl _ hlt

/-- Suppression at a sample input: the armed sentinel reaches the completion. -/
theorem PrintResult_nan_suppressed_witness :
    isnan quiet_NaN = true ∧
    (PrintResult (sampleHost kRetnType_Form) sampleCommand quiet_NaN State.initial).console =
      State.initial.console ∧
    (PrintResult (sampleHost kRetnType_Form) sampleCommand quiet_NaN State.initial).hostCalls =
      State.initial.hostCalls :=
  ⟨by decide,
    (PrintResult_nan_suppressed (sampleHost kRetnType_Form) sampleCommand (some sampleCommand)
      quiet_NaN State.initial (by decide)).1⟩

/-! ## C4: the end-to-end scenario -/

theorem PrintForm_some_console (form : TESForm) (s : State) :
    (PrintForm (some form) s).console =
      s.console ++ (["(Form ID) >> " ++ fmtX form.refID] ++
        (if form.editorId ≠ "" then ["(Editor ID) >> " ++ form.editorId] else []) ++
        (if form.fullName ≠ "" ∧ form.fullName ≠ "<no name>" then
          ["(Name) >> " ++ form.fullName] else [])) := by
  simp only [PrintForm, Console_Print, HookConsolePrint, String_length_pos_iff]
  split_ifs <;> simp_all

/-- C4, as stated, fails: in the scenario (print count 0, declared type `Default`, the
raw value `0x14` not NaN and aliasing a live form with editor id `MyNPC` and an empty
display name) the console does not receive just the two value lines; the header line
comes first. -/
theorem PrintResult_scenario_counterexample :
    State.initial.g_commandPrints = 0 ∧
    GetCmdReturnType (sampleHost kRetnType_Default) sampleCommand = kRetnType_Default ∧
    isnan 0x14 = false ∧
    (sampleHost kRetnType_Default).forms (reinterpretUInt32 0x14) = some sampleForm ∧
    sampleForm.editorId = "MyNPC" ∧ sampleForm.fullName = "" ∧
    emitted State.initial
        (PrintResult (sampleHost kRetnType_Default) sampleCommand 0x14 State.initial) ≠
      ["(Form ID) >> " ++ fmtX sampleForm.refID, "(Editor ID) >> MyNPC"] ∧
    emitted State.initial
        (PrintResult (sampleHost kRetnType_Default) sampleCommand 0x14 State.initial) =
      ["<Improved Console> GetSelf", "(Form ID) >> 14", "(Editor ID) >> MyNPC"] := by
  decide

/-- C4, amended. In the scenario (print count 0, declared type `Default`, a raw result
that is not NaN and whose low 32 bits resolve to a live form with editor id `MyNPC` and
an empty display name) the console receives three lines: the header
`<Improved Console> <long name>`, then `(Form ID) >> <upper-case hex of the form id>`,
then `(Editor ID) >> MyNPC`. -/
theorem PrintResult_scenario (h : Host) (commandInfo : CommandInfo) (v : Nat) (s : State)
    (form : TESForm)
    (hprints : s.g_commandPrints = 0)
    (_hT : GetCmdReturnType h commandInfo = kRetnType_Default)
    (hnan : isnan v = false)
    (hlive : (LookupFormByID h (reinterpretUInt32 v) s).1 = some form)
    (heditor : form.editorId = "MyNPC") (hname : form.fullName = "") :
    emitted s (PrintResult h commandInfo v s) =
      ["<Improved Console> " ++ commandInfo.longName,
       "(Form ID) >> " ++ fmtX form.refID,
       "(Editor ID) >> MyNPC"] ∧
    (PrintResult h commandInfo v s).console =
      s.console ++ emitted s (PrintResult h commandInfo v s) := by
  have hf : h.forms (reinterpretUInt32 v) = some form := by
    simpa [LookupFormByID] using hlive
  have hcons : (PrintResult h commandInfo v s).console =
      s.console ++ ["<Improved Console> " ++ commandInfo.longName,
       "(Form ID) >> " ++ fmtX form.refID,
       "(Editor ID) >> MyNPC"] := by
    simp only [PrintResult, hprints, hnan, LookupFormByID, hf, PrintVar, PrintFormById]
    simp [PrintForm_some_console, Console_Print, HookConsolePrint, heditor, hname]
  have hem := emitted_of_append hcons
  exact ⟨hem, by rw [hem, hcons]⟩

/-- The amended scenario at a sample input. -/
theorem PrintResult_scenario_witness :
    State.initial.g_commandPrints = 0 ∧
    GetCmdReturnType (sampleHost kRetnType_Default) sampleCommand = kRetnType_Default ∧
    isnan 0x14 = false ∧
    (LookupFormByID (sampleHost kRetnType_Default) (reinterpretUInt32 0x14) State.initial).1 =
      some sampleForm ∧
    sampleForm.editorId = "MyNPC" ∧ sampleForm.fullName = "" ∧
    emitted State.initial
        (PrintResult (sampleHost kRetnType_Default) sampleCommand 0x14 State.initial) =
      ["<Improved Console> " ++ sampleCommand.longName,
       "(Form ID) >> " ++ fmtX sampleForm.refID,
       "(Editor ID) >> MyNPC"] :=
  ⟨rfl, rfl, by decide, by decide, rfl, rfl,
    (PrintResult_scenario (sampleHost kRetnType_Default) sampleCommand 0x14 State.initial
      sampleForm rfl rfl (by decide) (by decide) rfl rfl).1⟩

/-! ## C5: array rendering -/

/-- The lines `PrintArray` appends for a resolved array. -/
theorem PrintArray_some_console (h : Host) (arr : NVSEArrayVar) (s : State) :
    (PrintArray h (some arr) s).console = s.console ++
      (if arr.elems.length = 0 then ["Empty array"] else
        arr.elems.map (fun kv =>
          "(Key) >> " ++ FormatElement h kv.1 ++ "; (Value) >> " ++ FormatElement h kv.2)
        ++ ["Array Size >> " ++ toString arr.elems.length]) := by
  have hsize : toInt32 (GetArraySize arr) = (arr.elems.length : Int) :=
    toInt32_of_lt arr.size_lt
  simp only [PrintArray, hsize, GetElements, zip_keys_values]
  by_cases h0 : arr.elems.length = 0
  · simp [h0, Console_Print, HookConsolePrint]
  · have h0i : ¬ ((arr.elems.length : Int) = 0) := by exact_mod_cast h0
    simp [h0, h0i, Console_Print, HookConsolePrint, PrintArray_loop_console, fmtD_natCast]

/-- C5. Array rendering: a null array yields exactly `Invalid array` (also through the
overload taking an id that does not resolve); a resolved array with no element yields exactly
`Empty array`; a resolved array with `N > 0` elements yields one line
`(Key) >> <FormatElement key>; (Value) >> <FormatElement value>` per pair, in
enumeration order, then the line `Array Size >> N`: `N + 1` lines in all. -/
theorem PrintArray_rendering (h : Host) (arr : NVSEArrayVar) (N : Nat) (arrayId : Nat)
    (s : State) (hN : GetArraySize arr = N) :
    emitted s (PrintArray h none s) = ["Invalid array"] ∧
    ((LookupArrayByID h arrayId s).1 = none →
      emitted s (PrintArrayById h arrayId s) = ["Invalid array"]) ∧
    (N = 0 → emitted s (PrintArray h (some arr) s) = ["Empty array"]) ∧
    (0 < N →
      emitted s (PrintArray h (some arr) s) =
        arr.elems.map (fun kv =>
          "(Key) >> " ++ FormatElement h kv.1 ++ "; (Value) >> " ++ FormatElement h kv.2)
        ++ ["Array Size >> " ++ toString N] ∧
      (emitted s (PrintArray h (some arr) s)).length = N + 1) ∧
    (PrintArray h (some arr) s).console = s.console ++ emitted s (PrintArray h (some arr) s) := by
  have hlen : arr.elems.length = N := hN
  have hcons : (PrintArray h (some arr) s).console = s.console ++
      (if N = 0 then ["Empty array"] else
        arr.elems.map (fun kv =>
          "(Key) >> " ++ FormatElement h kv.1 ++ "; (Value) >> " ++ FormatElement h kv.2)
        ++ ["Array Size >> " ++ toString N]) := by
    rw [PrintArray_some_console, hlen]
  have hem := emitted_of_append hcons
  refine ⟨emitted_of_append (by simp [PrintArray, Console_Print, HookConsolePrint]), ?_, ?_, ?_, ?_⟩
  · intro hnone
    have hn : h.arrays arrayId = none := by simpa [LookupArrayByID] using hnone
    exact emitted_of_append (by simp [PrintArrayById, LookupArrayByID, hn, PrintArray,
      Console_Print, HookConsolePrint])
  · intro h0
    rw [hem, if_pos h0]
  · intro hpos
    have h0 : ¬ N = 0 := Nat.pos_iff_ne_zero.mp hpos
    rw [hem, if_neg h0]
    exact ⟨rfl, by simp [hlen]⟩
  · rw [hem, hcons]

/-- Array rendering at a sample input: the one-pair array, printed from a state that
already holds a console line. -/
theorem PrintArray_rendering_witness :
    GetArraySize sampleArray = 1 ∧
    emitted sampleBusyState (PrintArray (sampleHost kRetnType_Array) (some sampleArray)
        sampleBusyState) =
      sampleArray.elems.map (fun kv =>
          "(Key) >> " ++ FormatElement (sampleHost kRetnType_Array) kv.1 ++ "; (Value) >> " ++
            FormatElement (sampleHost kRetnType_Array) kv.2)
        ++ ["Array Size >> " ++ toString 1] ∧
    (emitted sampleBusyState (PrintArray (sampleHost kRetnType_Array) (some sampleArray)
        sampleBusyState)).length = 1 + 1 :=
  ⟨rfl,
    (PrintArray_rendering (sampleHost kRetnType_Array) sampleArray 1 7 sampleBusyState
      rfl).2.2.2.1 (by decide)⟩

/-! ## C6: reference formatting -/

/-- C6. Reference formatting: for a non-null form `PrintForm` emits first
`(Form ID) >> <upper-case hex refID>`, then `(Editor ID) >> <editorId>` exactly when the
editor id is non-empty, then `(Name) >> <name>` exactly when the display name is non-empty
and is not `<no name>`. With both texts empty only the first line is emitted; with the
display name `<no name>` there is no `(Name)` line. -/
theorem PrintForm_lines (form : TESForm) (refID : Nat) (editorId : String) (s : State) :
    emitted s (PrintForm (some form) s) =
      ["(Form ID) >> " ++ fmtX form.refID] ++
        (if form.editorId ≠ "" then ["(Editor ID) >> " ++ form.editorId] else []) ++
        (if form.fullName ≠ "" ∧ form.fullName ≠ "<no name>" then
          ["(Name) >> " ++ form.fullName] else []) ∧
    (PrintForm (some form) s).console = s.console ++ emitted s (PrintForm (some form) s) ∧
    emitted s (PrintForm (some ⟨refID, "", ""⟩) s) = ["(Form ID) >> " ++ fmtX refID] ∧
    emitted s (PrintForm (some ⟨refID, editorId, "<no name>"⟩) s) =
      ["(Form ID) >> " ++ fmtX refID] ++
        (if editorId ≠ "" then ["(Editor ID) >> " ++ editorId] else []) ∧
    fmtX 0xDEADBEEF = "DEADBEEF" ∧ fmtX 0x14 = "14" ∧ fmtX 0 = "0" := by
  have hem := emitted_of_append (PrintForm_some_console form s)
  refine ⟨hem, ?_, ?_, ?_, by decide, by decide, by decide⟩
  · rw [hem]; exact PrintForm_some_console form s
  · rw [emitted_of_append (PrintForm_some_console _ s)]
    simp
  · rw [emitted_of_append (PrintForm_some_console _ s)]
    simp

/-! ## C7: array dispatch -/

theorem PrintArray_loop_hostCalls (h : Host) (l : List (Element × Element)) (s : State) :
    (PrintArray.loop h l s).hostCalls = s.hostCalls := by
  induction l generalizing s with
  | nil => simp [PrintArray.loop]
  | cons a l ih =>
    obtain ⟨k, v⟩ := a
    simp [PrintArray.loop, ih, Console_Print, HookConsolePrint]

theorem PrintArray_hostCalls (h : Host) (arrayPtr : Option NVSEArrayVar) (s : State) :
    (PrintArray h arrayPtr s).hostCalls = s.hostCalls := by
  cases arrayPtr with
  | none => simp [PrintArray, Console_Print, HookConsolePrint]
  | some arr =>
    simp only [PrintArray, Console_Print, HookConsolePrint, GetElements]
    split_ifs
    · rfl
    · simp [PrintArray_loop_hostCalls]

/-- No output of `PrintArray` is a single line that starts with an opening parenthesis. -/
theorem PrintArray_emitted_ne_paren (h : Host) (arrayPtr : Option NVSEArrayVar)
    (s : State) (rest : String) :
    emitted s (PrintArray h arrayPtr s) ≠ ["(" ++ rest] := by
  have hhead : ∀ tail : String, tail ≠ "(" ++ rest →
      ∀ l : List String, l ++ [tail] ≠ ["(" ++ rest] := by
    intro tail htail l hl
    cases l with
    | nil => simp at hl; exact htail hl
    | cons a l => simp at hl
  cases arrayPtr with
  | none =>
    rw [emitted_of_append (show (PrintArray h none s).console = s.console ++ ["Invalid array"]
      by simp [PrintArray, Console_Print, HookConsolePrint])]
    intro hc
    have hd := congrArg String.data (List.singleton_inj.mp hc)
    simp [String.data_append] at hd
  | some arr =>
    rw [emitted_of_append (PrintArray_some_console h arr s)]
    split_ifs
    · intro hc
      have hd := congrArg String.data (List.singleton_inj.mp hc)
      simp [String.data_append] at hd
    · apply hhead
      intro hc
      have hd := congrArg String.data hc
      simp [String.data_append] at hd

/-- C7, as stated, fails for `ArrayIndex`: with the raw value `5.0` and a host whose array
`5` holds one pair, `PrintVar` with type `ArrayIndex` prints the `(Unknown)` line and
queries no registry, whereas the array rendering of the handle (which `PrintVar` with type
`Array` produces) is the element dump; the two outputs differ, and the `(Unknown)` line is
not the output of `PrintArray` on any lookup result at all. -/
theorem PrintVar_ArrayIndex_counterexample :
    emitted State.initial (PrintVar (sampleHost kRetnType_ArrayIndex) 0x4014000000000000
        kRetnType_ArrayIndex State.initial) = ["(Unknown) >> 5.00 / 0"] ∧
    queried State.initial (PrintVar (sampleHost kRetnType_ArrayIndex) 0x4014000000000000
        kRetnType_ArrayIndex State.initial) = [] ∧
    castUInt32 0x4014000000000000 = 5 ∧
    emitted State.initial (PrintArray (sampleHost kRetnType_ArrayIndex)
        ((sampleHost kRetnType_ArrayIndex).arrays (castUInt32 0x4014000000000000))
        State.initial) = ["(Key) >> 0.00; (Value) >> \"a\"", "Array Size >> 1"] ∧
    emitted State.initial (PrintVar (sampleHost kRetnType_ArrayIndex) 0x4014000000000000
        kRetnType_ArrayIndex State.initial) ≠
      emitted State.initial (PrintArray (sampleHost kRetnType_ArrayIndex)
        ((sampleHost kRetnType_ArrayIndex).arrays (castUInt32 0x4014000000000000))
        State.initial) ∧
    emitted State.initial (PrintVar (sampleHost kRetnType_ArrayIndex) 0x4014000000000000
        kRetnType_ArrayIndex State.initial) ≠
      emitted State.initial (PrintVar (sampleHost kRetnType_ArrayIndex) 0x4014000000000000
        kRetnType_Array State.initial) ∧
    ¬ ∃ arrayPtr : Option NVSEArrayVar,
      emitted State.initial (PrintArray (sampleHost kRetnType_ArrayIndex) arrayPtr
        State.initial) =
      emitted State.initial (PrintVar (sampleHost kRetnType_ArrayIndex) 0x4014000000000000
        kRetnType_ArrayIndex State.initial) := by
  refine ⟨by decide, by decide, by decide, by decide, by decide, by decide, ?_⟩
  rintro ⟨arrayPtr, hc⟩
  have hline : emitted State.initial (PrintVar (sampleHost kRetnType_ArrayIndex)
      0x4014000000000000 kRetnType_ArrayIndex State.initial) =
      ["(" ++ "Unknown) >> 5.00 / 0"] := by decide
  rw [hline] at hc
  exact PrintArray_emitted_ne_paren _ arrayPtr State.initial _ hc

/-- C7, amended. For every raw value, `PrintVar` with effective type `Array` renders the
value as an array handle: it looks up the array with id `static_cast<UInt32>(value)` and
its output is that of `PrintArray` on the lookup's result. `PrintVar` with effective type
`ArrayIndex` renders the value as Unknown: the single line
`(Unknown) >> <two decimals> / <low 32 bits as %d>`, with no array lookup. -/
theorem PrintVar_array_dispatch (h : Host) (value : Nat) (s : State) :
    (PrintVar h value kRetnType_Array s =
        PrintArray h (LookupArrayByID h (castUInt32 value) s).1
          (LookupArrayByID h (castUInt32 value) s).2 ∧
      emitted s (PrintVar h value kRetnType_Array s) =
        emitted s (PrintArray h (LookupArrayByID h (castUInt32 value) s).1 s) ∧
      queried s (PrintVar h value kRetnType_Array s) =
        [HostCall.lookupArray (castUInt32 value)]) ∧
    (PrintVar h value kRetnType_ArrayIndex s = PrintUnknown h value s ∧
      emitted s (PrintVar h value kRetnType_ArrayIndex s) =
        ["(Unknown) >> " ++ h.fixed2 value ++ " / " ++
          fmtD (toInt32 (reinterpretUInt32 value))] ∧
      queried s (PrintVar h value kRetnType_ArrayIndex s) = []) := by
  refine ⟨⟨rfl, ?_, ?_⟩, rfl, ?_, ?_⟩
  · have h1 : (PrintVar h value kRetnType_Array s).console =
        s.console ++ (PrintArray h (h.arrays (castUInt32 value)) State.initial).console := by
      simp only [PrintVar, PrintArrayById, LookupArrayByID]
      rw [PrintArray_console]
    rw [emitted_of_append h1]
    exact (emitted_of_append (PrintArray_console h _ s)).symm
  · apply queried_of_append
    simp [PrintVar, PrintArrayById, LookupArrayByID, PrintArray_hostCalls]
  · exact emitted_of_append (by simp [PrintVar, PrintUnknown, Console_Print, HookConsolePrint])
  · exact queried_of_append (by simp [PrintVar, PrintUnknown, Console_Print, HookConsolePrint])

/-! ## C8: pre-call arming -/

/-- C8. Pre-call arming: from every prior state and every prior content of the result
slot, `PreCommandCall` yields print count `0`, the slot holding the quiet NaN (which
`isnan` recognises) and the call-confirmed flag set; every other field is kept, and the
prior print count, slot content and flag do not influence the outcome. -/
theorem PreCommandCall_arms (slot slot2 prints2 : Nat) (called2 : Bool) (s : State) :
    (PreCommandCall slot s).2.g_commandPrints = 0 ∧
    (PreCommandCall slot s).1 = quiet_NaN ∧
    isnan (PreCommandCall slot s).1 = true ∧
    (PreCommandCall slot s).2.g_cmdCalled = true ∧
    (PreCommandCall slot s).2 = { s with g_commandPrints := 0, g_cmdCalled := true } ∧
    PreCommandCall slot2 { s with g_commandPrints := prints2, g_cmdCalled := called2 } =
      PreCommandCall slot s := by
  have hq : isnan quiet_NaN = true := by decide
  exact ⟨rfl, rfl, hq, rfl, rfl, rfl⟩

/-! ## C9: no double print along a trace -/

theorem HookConsolePrint_prints (s : State) :
    (HookConsolePrint s).g_commandPrints = (s.g_commandPrints + 1) % 2 ^ 32 := rfl

/-- After arming, `k` observed prints leave the slot armed and every field but the print
count as arming left it; the print count is `k` modulo `2^32`. -/
theorem run_arm_observe (h : Host) (k slot : Nat) (s : State) :
    run h (Step.arm :: List.replicate k Step.observePrint) (slot, s) =
      (quiet_NaN, { s with g_commandPrints := k % 2 ^ 32, g_cmdCalled := true }) := by
  induction k with
  | zero => simp [run, step, PreCommandCall]
  | succ k ih =>
    have hsplit : Step.arm :: List.replicate (k + 1) Step.observePrint =
        (Step.arm :: List.replicate k Step.observePrint) ++ [Step.observePrint] := by
      rw [List.replicate_succ']; rfl
    rw [hsplit]
    unfold run at ih ⊢
    rw [List.foldl_append, ih]
    simp only [List.foldl_cons, List.foldl_nil, step, HookConsolePrint]
    have hmod : (k % 2 ^ 32 + 1) % 2 ^ 32 = (k + 1) % 2 ^ 32 := by omega
    simp [hmod]

theorem PrintCommandResult_console (h : Host) (r : Nat) (commandInfo : Option CommandInfo)
    (s : State) (hq : s.g_commandPrints ≠ 0 ∨ isnan r = true) :
    (PrintCommandResult h r commandInfo s).console = s.console := by
  cases commandInfo with
  | none => simp [PrintCommandResult]
  | some info =>
    simp only [PrintCommandResult]
    rcases hq with hp | hn
    · exact (PrintResult_aborts_of_prints h info r s hp).1
    · exact (PrintResult_aborts_of_nan h info r s hn).1

/-- C9. In the step model (arm = `PreCommandCall`, observePrint = `HookConsolePrint`,
complete = `PrintCommandResult`): an observed print adds one to the 32-bit print count and
keeps every other field; after arming, `k < 2^32` observed prints leave the count at
exactly `k`; for `1 ≤ k < 2^32` and any result the completion appends no console line;
and with no print observed and the result still the armed NaN it appends none either. -/
theorem trace_no_double_print (h : Host) (k slot : Nat) (s : State)
    (commandInfo : Option CommandInfo) (r : Nat) (hk1 : 1 ≤ k) (hk2 : k < 2 ^ 32) :
    (∀ t : State,
      HookConsolePrint t = { t with g_commandPrints := (t.g_commandPrints + 1) % 2 ^ 32 } ∧
      (t.g_commandPrints + 1 < 2 ^ 32 →
        (HookConsolePrint t).g_commandPrints = t.g_commandPrints + 1)) ∧
    (∀ j : Nat, j < 2 ^ 32 →
      (run h (Step.arm :: List.replicate j Step.observePrint) (slot, s)).2.g_commandPrints
        = j) ∧
    (run h (Step.arm :: List.replicate k Step.observePrint ++
        [Step.complete commandInfo r]) (slot, s)).2.console = s.console ∧
    (run h [Step.arm, Step.complete commandInfo (run h [Step.arm] (slot, s)).1]
        (slot, s)).2.console = s.console := by
  refine ⟨fun t => ⟨rfl, fun ht => ?_⟩, fun j hj => ?_, ?_, ?_⟩
  · rw [HookConsolePrint_prints, Nat.mod_eq_of_lt ht]
  · rw [run_arm_observe]
    exact Nat.mod_eq_of_lt hj
  · have hrun := run_arm_observe h k slot s
    have happ : run h (Step.arm :: List.replicate k Step.observePrint ++
        [Step.complete commandInfo r]) (slot, s) =
        step h (run h (Step.arm :: List.replicate k Step.observePrint) (slot, s))
          (Step.complete commandInfo r) := by
      simp [run, List.foldl_append]
    rw [happ, hrun]
    simp only [step]
    rw [PrintCommandResult_console]
    left
    show k % 2 ^ 32 ≠ 0
    rw [Nat.mod_eq_of_lt hk2]
    omega
  · have h0 := run_arm_observe h 0 slot s
    simp only [List.replicate_zero] at h0
    have happ : run h [Step.arm, Step.complete commandInfo (run h [Step.arm] (slot, s)).1]
        (slot, s) = step h (run h [Step.arm] (slot, s))
          (Step.complete commandInfo (run h [Step.arm] (slot, s)).1) := by
      simp [run]
    rw [happ, h0]
    simp only [step]
    rw [PrintCommandResult_console]
    right
    decide

/-- The trace property at a sample input: three prints observed, then a completion whose
result `0x14` is a valid number aliasing a live form. -/
theorem trace_no_double_print_witness :
    1 ≤ 3 ∧ 3 < 2 ^ 32 ∧
    (run (sampleHost kRetnType_Default) (Step.arm :: List.replicate 3 Step.observePrint ++
        [Step.complete (some sampleCommand) 0x14]) (0x14, sampleBusyState)).2.console =
      sampleBusyState.console :=
  ⟨by decide, by decide,
    (trace_no_double_print (sampleHost kRetnType_Default) 3 0x14 sampleBusyState
      (some sampleCommand) 0x14 (by decide) (by decide)).2.2.1⟩

/-! ## C10: soft failure on an unresolved reference -/

/-- C10. Soft failure: when the low 32 bits of the raw value do not resolve in the form
registry, `PrintVar` with type `Form` appends exactly one line, `Invalid Form`; that line
is none of the `(Form ID)`, `(Editor ID)` or `(Name)` lines, and the call returns a state
(the function is total): besides the console and the record of the query only the print
count changes, by the one line printed. -/
theorem PrintVar_Form_unresolved (h : Host) (value : Nat) (s : State)
    (hmiss : (LookupFormByID h (reinterpretUInt32 value) s).1 = none) :
    emitted s (PrintVar h value kRetnType_Form s) = ["Invalid Form"] ∧
    (PrintVar h value kRetnType_Form s).console = s.console ++ ["Invalid Form"] ∧
    (∀ line ∈ emitted s (PrintVar h value kRetnType_Form s), ∀ text : String,
      line ≠ "(Form ID) >> " ++ text ∧ line ≠ "(Editor ID) >> " ++ text ∧
      line ≠ "(Name) >> " ++ text) ∧
    PrintVar h value kRetnType_Form s =
      { s with
        console := s.console ++ ["Invalid Form"]
        hostCalls := s.hostCalls ++ [HostCall.lookupForm (reinterpretUInt32 value)]
        g_commandPrints := (s.g_commandPrints + 1) % 2 ^ 32 } := by
  have hn : h.forms (reinterpretUInt32 value) = none := by
    simpa [LookupFormByID] using hmiss
  have hst : PrintVar h value kRetnType_Form s =
      { s with
        console := s.console ++ ["Invalid Form"]
        hostCalls := s.hostCalls ++ [HostCall.lookupForm (reinterpretUInt32 value)]
        g_commandPrints := (s.g_commandPrints + 1) % 2 ^ 32 } := by
    simp [PrintVar, PrintFormById, LookupFormByID, hn, PrintForm, Console_Print, HookConsolePrint]
  have hc : (PrintVar h value kRetnType_Form s).console = s.console ++ ["Invalid Form"] := by
    rw [hst]
  have hem := emitted_of_append hc
  refine ⟨hem, hc, ?_, hst⟩
  intro line hline text
  rw [hem] at hline
  simp only [List.mem_singleton] at hline
  subst hline
  refine ⟨?_, ?_, ?_⟩ <;>
  · intro hc2
    have hd := congrArg String.data hc2
    simp [String.data_append] at hd

/-- Soft failure at a sample input: handle `0x15` is not in the sample registry. -/
theorem PrintVar_Form_unresolved_witness :
    (LookupFormByID (sampleHost kRetnType_Form) (reinterpretUInt32 0x15) State.initial).1
      = none ∧
    emitted State.initial (PrintVar (sampleHost kRetnType_Form) 0x15 kRetnType_Form
      State.initial) = ["Invalid Form"] :=
  ⟨by decide,
    (PrintVar_Form_unresolved (sampleHost kRetnType_Form) 0x15 State.initial (by decide)).1⟩

/-! ## C11: the variable synchronizer -/

/-- One entry of the mapping after the synchronizer has visited it. -/
theorem HookHandleVariableChanges_map (eventList : ScriptEventList)
    (m : List (Nat × ConsoleVar)) (s : State) :
    (HookHandleVariableChanges eventList m s).1 = m.map (fun e =>
      (e.1, (⟨e.2.id, if doubleNe e.2.value (eventList.GetVariable e.2.id).data then
        (eventList.GetVariable e.2.id).data else e.2.value⟩ : ConsoleVar))) := by
  simp only [HookHandleVariableChanges]
  apply List.map_congr_left
  intro e _
  split_ifs <;> rfl

theorem doubleNe_false {a b : Nat} (hne : doubleNe a b = false) :
    a = b ∨ (doubleIsZero a = true ∧ doubleIsZero b = true) := by
  simp only [doubleNe, Bool.or_eq_false_iff, Bool.and_eq_false_iff] at hne
  obtain ⟨_, hab⟩ := hne
  rcases hab with hab | hz
  · left; simpa using hab
  · right; simpa using hz

/-- C11, as stated, fails: with three variables cached as `+0.0` and a scope holding
`-0.0`, NaN and `5.0` for them, the synchronizer keeps the cached `+0.0` of the first (it
does not differ from `-0.0` under `!=`), so its encoding is not the live one; and the NaN
it stores for the second does not compare equal to the live NaN. Neither reading of
"equals" holds for every entry. -/
theorem HookHandleVariableChanges_counterexample :
    (HookHandleVariableChanges sampleScope sampleVarMap State.initial).1 =
      [(10, ⟨1, 0⟩), (20, ⟨2, quiet_NaN⟩), (30, ⟨3, 0x4014000000000000⟩)] ∧
    (sampleScope.GetVariable 1).data = 0x8000000000000000 ∧
    (¬ ∀ entry ∈ (HookHandleVariableChanges sampleScope sampleVarMap State.initial).1,
      entry.2.value = (sampleScope.GetVariable entry.2.id).data) ∧
    (¬ ∀ entry ∈ (HookHandleVariableChanges sampleScope sampleVarMap State.initial).1,
      doubleNe entry.2.value (sampleScope.GetVariable entry.2.id).data = false) := by
  decide

/-- C11, amended. After `HookHandleVariableChanges(scope)` every tracked entry's cached
value has the encoding of the scope's live value for the entry's id, except that a cached
zero is kept when the live value is a zero too (`+0.0` and `-0.0` do not differ under
`!=`); the keys and the entries' ids are unchanged; no console line is emitted (the state
is returned as it was); running it again on the same scope changes nothing more; and it
changes nothing when every cached value already has its live value's encoding, or when no
cached value differs from its live value under `!=`. -/
theorem HookHandleVariableChanges_sync (eventList : ScriptEventList)
    (m : List (Nat × ConsoleVar)) (s : State) :
    (∀ entry ∈ (HookHandleVariableChanges eventList m s).1,
      entry.2.value = (eventList.GetVariable entry.2.id).data ∨
      (doubleIsZero entry.2.value = true ∧
        doubleIsZero (eventList.GetVariable entry.2.id).data = true)) ∧
    (HookHandleVariableChanges eventList m s).1.map (fun e => (e.1, e.2.id)) =
      m.map (fun e => (e.1, e.2.id)) ∧
    (HookHandleVariableChanges eventList m s).2 = s ∧
    emitted s (HookHandleVariableChanges eventList m s).2 = [] ∧
    (HookHandleVariableChanges eventList (HookHandleVariableChanges eventList m s).1
      (HookHandleVariableChanges eventList m s).2).1 =
      (HookHandleVariableChanges eventList m s).1 ∧
    ((∀ entry ∈ m, entry.2.value = (eventList.GetVariable entry.2.id).data) →
      (HookHandleVariableChanges eventList m s).1 = m) ∧
    ((∀ entry ∈ m, doubleNe entry.2.value (eventList.GetVariable entry.2.id).data = false) →
      (HookHandleVariableChanges eventList m s).1 = m) := by
  refine ⟨?_, ?_, rfl, ?_, ?_, ?_, ?_⟩
  · intro entry hmem
    rw [HookHandleVariableChanges_map] at hmem
    obtain ⟨e, _, rfl⟩ := List.mem_map.mp hmem
    by_cases hne : doubleNe e.2.value (eventList.GetVariable e.2.id).data = true
    · left; simp [hne]
    · have hf : doubleNe e.2.value (eventList.GetVariable e.2.id).data = false := by
        simpa using hne
      simpa [hf] using doubleNe_false hf
  · rw [HookHandleVariableChanges_map, List.map_map]
    rfl
  · exact emitted_of_append (by simp [HookHandleVariableChanges])
  · rw [HookHandleVariableChanges_map eventList _ _, HookHandleVariableChanges_map, List.map_map]
    apply List.map_congr_left
    intro e _
    by_cases hne : doubleNe e.2.value (eventList.GetVariable e.2.id).data = true
    · simp [hne]
    · have hf : doubleNe e.2.value (eventList.GetVariable e.2.id).data = false := by
        simpa using hne
      simp [hf]
  · intro heq
    rw [HookHandleVariableChanges_map]
    conv_rhs => rw [← List.map_id m]
    apply List.map_congr_left
    intro e he
    have hv := heq e he
    obtain ⟨k, ⟨i, v⟩⟩ := e
    simp only at hv
    simp [hv]
  · intro heq
    rw [HookHandleVariableChanges_map]
    conv_rhs => rw [← List.map_id m]
    apply List.map_congr_left
    intro e he
    have hv := heq e he
    obtain ⟨k, ⟨i, v⟩⟩ := e
    simp only at hv
    simp [hv]

/-- The synchronizer at a sample input: a mapping that already holds the live values of
the sample scope is left as it is. -/
theorem HookHandleVariableChanges_sync_witness :
    (∀ entry ∈ [(30, (⟨3, 0x4014000000000000⟩ : ConsoleVar)), (40, ⟨4, 0x4014000000000000⟩)],
      entry.2.value = (sampleScope.GetVariable entry.2.id).data) ∧
    (HookHandleVariableChanges sampleScope
      [(30, ⟨3, 0x4014000000000000⟩), (40, ⟨4, 0x4014000000000000⟩)] sampleBusyState).1 =
      [(30, ⟨3, 0x4014000000000000⟩), (40, ⟨4, 0x4014000000000000⟩)] :=
  ⟨by decide,
    (HookHandleVariableChanges_sync sampleScope
      [(30, ⟨3, 0x4014000000000000⟩), (40, ⟨4, 0x4014000000000000⟩)] sampleBusyState).2.2.2.2.2.1
      (by decide)⟩

/-! ## C12: malformed index lookup -/

/-- C12. For every variable name and index text, `PrintArrayIndex` returns `false` exactly
when `GetElementAtIndex` raises `std::invalid_argument`; then the console is unchanged,
the message goes to the log, and nothing is propagated (a `bool` is returned in every
case, the function being total). Otherwise it returns `true` and leaves the state that
`PrintElement` of the looked-up element leaves, whose console lines are: the `(Float)`
line for a number, the lines of `PrintForm` for a form (`Invalid Form` for a null one),
the `(String)` line for a string, the lines of `PrintArray` for an array (`Invalid array`
for a null one), and `Invalid element` otherwise. -/
theorem PrintArrayIndex_lookup (h : Host)
    (GetElementAtIndex : String → String → Except String NVSEArrayElement)
    (varName index : String) (s : State) (number : Nat) (string : String) (form : TESForm)
    (arr : NVSEArrayVar) :
    ((PrintArrayIndex h GetElementAtIndex varName index s).1 = false ↔
      ∃ what, GetElementAtIndex varName index = Except.error what) ∧
    (∀ what, GetElementAtIndex varName index = Except.error what →
      PrintArrayIndex h GetElementAtIndex varName index s = (false, PrintLog what s) ∧
      (PrintArrayIndex h GetElementAtIndex varName index s).2.console = s.console ∧
      emitted s (PrintArrayIndex h GetElementAtIndex varName index s).2 = [] ∧
      (PrintArrayIndex h GetElementAtIndex varName index s).2.log = s.log ++ [what]) ∧
    (∀ elem, GetElementAtIndex varName index = Except.ok elem →
      PrintArrayIndex h GetElementAtIndex varName index s = (true, PrintElement h elem s) ∧
      emitted s (PrintArrayIndex h GetElementAtIndex varName index s).2 =
        emitted s (PrintElement h elem s)) ∧
    ((PrintArrayIndex h GetElementAtIndex varName index s).1 = true ↔
      ∃ elem, GetElementAtIndex varName index = Except.ok elem) ∧
    (emitted s (PrintElement h (NVSEArrayElement.kDataType_Numeric number) s) =
        ["(Float) >> " ++ h.fixed2 number] ∧
      emitted s (PrintElement h (NVSEArrayElement.kDataType_String string) s) =
        ["(String) >> \"" ++ string ++ "\""] ∧
      emitted s (PrintElement h (NVSEArrayElement.kDataType_Form none) s) =
        ["Invalid Form"] ∧
      emitted s (PrintElement h (NVSEArrayElement.kDataType_Form (some form)) s) =
        ["(Form ID) >> " ++ fmtX form.refID] ++
          (if form.editorId ≠ "" then ["(Editor ID) >> " ++ form.editorId] else []) ++
          (if form.fullName ≠ "" ∧ form.fullName ≠ "<no name>" then
            ["(Name) >> " ++ form.fullName] else []) ∧
      emitted s (PrintElement h (NVSEArrayElement.kDataType_Array none) s) =
        ["Invalid array"] ∧
      emitted s (PrintElement h (NVSEArrayElement.kDataType_Array (some arr)) s) =
        (if arr.elems.length = 0 then ["Empty array"] else
          arr.elems.map (fun kv =>
            "(Key) >> " ++ FormatElement h kv.1 ++ "; (Value) >> " ++ FormatElement h kv.2)
          ++ ["Array Size >> " ++ toString arr.elems.length]) ∧
      emitted s (PrintElement h NVSEArrayElement.kDataType_Invalid s) =
        ["Invalid element"]) := by
  have helem : emitted s (PrintElement h (NVSEArrayElement.kDataType_Numeric number) s) =
        ["(Float) >> " ++ h.fixed2 number] ∧
      emitted s (PrintElement h (NVSEArrayElement.kDataType_String string) s) =
        ["(String) >> \"" ++ string ++ "\""] ∧
      emitted s (PrintElement h (NVSEArrayElement.kDataType_Form none) s) =
        ["Invalid Form"] ∧
      emitted s (PrintElement h (NVSEArrayElement.kDataType_Form (some form)) s) =
        ["(Form ID) >> " ++ fmtX form.refID] ++
          (if form.editorId ≠ "" then ["(Editor ID) >> " ++ form.editorId] else []) ++
          (if form.fullName ≠ "" ∧ form.fullName ≠ "<no name>" then
            ["(Name) >> " ++ form.fullName] else []) ∧
      emitted s (PrintElement h (NVSEArrayElement.kDataType_Array none) s) =
        ["Invalid array"] ∧
      emitted s (PrintElement h (NVSEArrayElement.kDataType_Array (some arr)) s) =
        (if arr.elems.length = 0 then ["Empty array"] else
          arr.elems.map (fun kv =>
            "(Key) >> " ++ FormatElement h kv.1 ++ "; (Value) >> " ++ FormatElement h kv.2)
          ++ ["Array Size >> " ++ toString arr.elems.length]) ∧
      emitted s (PrintElement h NVSEArrayElement.kDataType_Invalid s) =
        ["Invalid element"] := by
    refine ⟨?_, ?_, ?_, ?_, ?_, ?_, ?_⟩
    · exact emitted_of_append (by
        simp [PrintElement, PrintFloat, Console_Print, HookConsolePrint])
    · exact emitted_of_append (by
        simp [PrintElement, PrintString, Console_Print, HookConsolePrint])
    · exact emitted_of_append (by
        simp [PrintElement, PrintForm, Console_Print, HookConsolePrint])
    · exact emitted_of_append (PrintForm_some_console form s)
    · exact emitted_of_append (by
        simp [PrintElement, PrintArray, Console_Print, HookConsolePrint])
    · exact emitted_of_append (PrintArray_some_console h arr s)
    · exact emitted_of_append (by simp [PrintElement, Console_Print, HookConsolePrint])
  cases hl : GetElementAtIndex varName index with
  | error what =>
    refine ⟨?_, ?_, ?_, ?_, helem⟩
    · simp [PrintArrayIndex, hl]
    · intro what2 hw
      cases hw
      refine ⟨by simp [PrintArrayIndex, hl], by simp [PrintArrayIndex, hl, PrintLog], ?_,
        by simp [PrintArrayIndex, hl, PrintLog]⟩
      exact emitted_of_append (by simp [PrintArrayIndex, hl, PrintLog])
    · intro elem he
      cases he
    · simp [PrintArrayIndex, hl]
  | ok elem =>
    refine ⟨?_, ?_, ?_, ?_, helem⟩
    · simp [PrintArrayIndex, hl]
    · intro what hw
      cases hw
    · intro elem2 he
      cases he
      simp [PrintArrayIndex, hl]
    · simp [PrintArrayIndex, hl]

/-- The lookup at sample inputs: a rejected index and an accepted one. -/
theorem PrintArrayIndex_lookup_witness :
    sampleLookup "arr" "x" = Except.error "invalid index" ∧
    (PrintArrayIndex (sampleHost kRetnType_Default) sampleLookup "arr" "x"
      sampleBusyState).2.console = sampleBusyState.console ∧
    sampleLookup "arr" "0" = Except.ok (NVSEArrayElement.kDataType_String "a") ∧
    PrintArrayIndex (sampleHost kRetnType_Default) sampleLookup "arr" "0" sampleBusyState =
      (true, PrintElement (sampleHost kRetnType_Default)
        (NVSEArrayElement.kDataType_String "a") sampleBusyState) ∧
    emitted sampleBusyState
        (PrintArrayIndex (sampleHost kRetnType_Default) sampleLookup "arr" "0"
          sampleBusyState).2 =
      emitted sampleBusyState (PrintElement (sampleHost kRetnType_Default)
        (NVSEArrayElement.kDataType_String "a") sampleBusyState) ∧
    emitted sampleBusyState (PrintElement (sampleHost kRetnType_Default)
        (NVSEArrayElement.kDataType_String "a") sampleBusyState) = ["(String) >> \"a\""] :=
  ⟨by rfl,
    ((PrintArrayIndex_lookup (sampleHost kRetnType_Default) sampleLookup "arr" "x"
      sampleBusyState 0 "a" sampleForm sampleArray).2.1 "invalid index" (by rfl)).2.1,
    by rfl,
    ((PrintArrayIndex_lookup (sampleHost kRetnType_Default) sampleLookup "arr" "0"
      sampleBusyState 0 "a" sampleForm sampleArray).2.2.1
        (NVSEArrayElement.kDataType_String "a") (by rfl)).1,
    ((PrintArrayIndex_lookup (sampleHost kRetnType_Default) sampleLookup "arr" "0"
      sampleBusyState 0 "a" sampleForm sampleArray).2.2.1
        (NVSEArrayElement.kDataType_String "a") (by rfl)).2,
    (PrintArrayIndex_lookup (sampleHost kRetnType_Default) sampleLookup "arr" "0"
      sampleBusyState 0 "a" sampleForm sampleArray).2.2.2.2.2.1⟩

/-! ## C13: post-call completion -/

/-- C13. For every result, state and command info (null included) `PrintCommandResult`
leaves `g_cmdCalled` false; with a null command info it changes nothing else: no console
line, no log line, no registry query, and the print count and the last-result globals
keep their values. -/
theorem PrintCommandResult_completion (h : Host) (commandResult : Nat)
    (commandInfo : Option CommandInfo) (s : State) :
    (PrintCommandResult h commandResult commandInfo s).g_cmdCalled = false ∧
    PrintCommandResult h commandResult none s = { s with g_cmdCalled := false } ∧
    emitted s (PrintCommandResult h commandResult none s) = [] ∧
    (PrintCommandResult h commandResult none s).console = s.console ∧
    (PrintCommandResult h commandResult none s).g_commandPrints = s.g_commandPrints ∧
    (PrintCommandResult h commandResult none s).g_lastResultValue = s.g_lastResultValue ∧
    (PrintCommandResult h commandResult none s).g_lastReturnType = s.g_lastReturnType ∧
    (PrintCommandResult h commandResult none s).g_commandWasFunction =
      s.g_commandWasFunction ∧
    (PrintCommandResult h commandResult none s).g_lastCommandWasSet =
      s.g_lastCommandWasSet := by
  refine ⟨?_, rfl, ?_, rfl, rfl, rfl, rfl, rfl, rfl⟩
  · cases commandInfo <;> rfl
  · exact emitted_of_append (by simp [PrintCommandResult])

/-! ## C14: unknown rendering -/

/-- C14. For every raw value and every effective type that is `Ambiguous`, `Max` or a tag
outside the named members, `PrintVar` appends exactly one line,
`(Unknown) >> <two decimals> / <integer>`, where the integer is the low 32 bits of the
double's encoding (printed with `%d`, so as a C `int`), and it queries no registry. -/
theorem PrintVar_unknown (h : Host) (value : Nat) (tag : Nat) (s : State) :
    (emitted s (PrintVar h value kRetnType_Ambiguous s) =
        ["(Unknown) >> " ++ h.fixed2 value ++ " / " ++ fmtD (toInt32 (value % 2 ^ 32))] ∧
      queried s (PrintVar h value kRetnType_Ambiguous s) = []) ∧
    (emitted s (PrintVar h value kRetnType_Max s) =
        ["(Unknown) >> " ++ h.fixed2 value ++ " / " ++ fmtD (toInt32 (value % 2 ^ 32))] ∧
      queried s (PrintVar h value kRetnType_Max s) = []) ∧
    (emitted s (PrintVar h value (CommandReturnType.other tag) s) =
        ["(Unknown) >> " ++ h.fixed2 value ++ " / " ++ fmtD (toInt32 (value % 2 ^ 32))] ∧
      queried s (PrintVar h value (CommandReturnType.other tag) s) = []) ∧
    (value % 2 ^ 32 < 2 ^ 31 → fmtD (toInt32 (value % 2 ^ 32)) = toString (value % 2 ^ 32)) ∧
    emitted State.initial (PrintVar (sampleHost kRetnType_Max) 0x4014000000000007
      kRetnType_Max State.initial) = ["(Unknown) >> 0.00 / 7"] ∧
    emitted State.initial (PrintVar (sampleHost kRetnType_Max) 0xFFFFFFFF
      kRetnType_Max State.initial) = ["(Unknown) >> 0.00 / -1"] := by
  have hline : ∀ T : CommandReturnType, PrintVar h value T s = PrintUnknown h value s →
      emitted s (PrintVar h value T s) =
        ["(Unknown) >> " ++ h.fixed2 value ++ " / " ++ fmtD (toInt32 (value % 2 ^ 32))] ∧
      queried s (PrintVar h value T s) = [] := by
    intro T hT
    rw [hT]
    exact ⟨emitted_of_append (by simp [PrintUnknown, Console_Print, HookConsolePrint, reinterpretUInt32]),
      queried_of_append (by simp [PrintUnknown, Console_Print, HookConsolePrint])⟩
  refine ⟨hline _ rfl, hline _ rfl, hline _ rfl, ?_, by decide, by decide⟩
  intro hlt
  rw [toInt32_of_lt hlt, fmtD_natCast]

/-- The unknown rendering at a sample input with the low 32 bits below `2^31`. -/
theorem PrintVar_unknown_witness :
    0x4014000000000007 % 2 ^ 32 < 2 ^ 31 ∧
    fmtD (toInt32 (0x4014000000000007 % 2 ^ 32)) = toString (0x4014000000000007 % 2 ^ 32) :=
  ⟨by decide,
    (PrintVar_unknown (sampleHost kRetnType_Max) 0x4014000000000007 9 State.initial).2.2.2.1
      (by decide)⟩

/-! ## Frame lemmas for the printer -/

theorem PrintForm_frame (form : Option TESForm) (s : State) :
    PrintForm form s =
      { s with
        console := (PrintForm form s).console
        g_commandPrints := (PrintForm form s).g_commandPrints } := by
  cases form with
  | none => rfl
  | some f =>
    simp only [PrintForm, Console_Print, HookConsolePrint]
    split_ifs <;> rfl

theorem PrintArray_loop_frame (h : Host) (l : List (Element × Element)) (s : State) :
    PrintArray.loop h l s =
      { s with
        console := (PrintArray.loop h l s).console
        g_commandPrints := (PrintArray.loop h l s).g_commandPrints } := by
  induction l generalizing s with
  | nil => rfl
  | cons a l ih =>
    obtain ⟨k, v⟩ := a
    simp only [PrintArray.loop]
    rw [ih]
    rfl

theorem PrintArray_frame (h : Host) (arrayPtr : Option NVSEArrayVar) (s : State) :
    PrintArray h arrayPtr s =
      { s with
        console := (PrintArray h arrayPtr s).console
        g_commandPrints := (PrintArray h arrayPtr s).g_commandPrints } := by
  cases arrayPtr with
  | none => rfl
  | some arr =>
    simp only [PrintArray]
    split_ifs
    · rfl
    · simp only [GetElements]
      rw [PrintArray_loop_frame]
      rfl

/-- The routine `PrintVar` changes nothing but the console, the record of queries and,
through the lines it prints, the print count. -/
theorem PrintVar_frame (h : Host) (value : Nat) (type : CommandReturnType) (s : State) :
    PrintVar h value type s =
      { s with
        console := (PrintVar h value type s).console
        hostCalls := (PrintVar h value type s).hostCalls
        g_commandPrints := (PrintVar h value type s).g_commandPrints } := by
  cases type
  case kRetnType_Form =>
    simp only [PrintVar, PrintFormById, LookupFormByID]
    rw [PrintForm_frame]
  case kRetnType_Array =>
    simp only [PrintVar, PrintArrayById, LookupArrayByID]
    rw [PrintArray_frame]
  all_goals rfl

/-! ## The print count under the printer -/

theorem PrintForm_prints (form : Option TESForm) (s : State) :
    (PrintForm form s).g_commandPrints =
      (s.g_commandPrints + (PrintForm form State.initial).console.length) % 2 ^ 32 := by
  cases form with
  | none => simp [PrintForm, Console_Print, HookConsolePrint, State.initial]
  | some f =>
    simp only [PrintForm, Console_Print, HookConsolePrint, State.initial]
    split_ifs <;> simp [Nat.add_assoc]

theorem PrintArray_loop_prints (h : Host) (l : List (Element × Element)) (s : State) :
    (PrintArray.loop h l s).g_commandPrints % 2 ^ 32 =
      (s.g_commandPrints + l.length) % 2 ^ 32 := by
  induction l generalizing s with
  | nil => simp [PrintArray.loop]
  | cons a l ih =>
    obtain ⟨k, v⟩ := a
    simp only [PrintArray.loop, List.length_cons]
    rw [ih]
    simp only [Console_Print, HookConsolePrint]
    omega

/-- The overload `PrintArray(NVSEArrayVar*)` on a non-null pointer, with the size read. -/
theorem PrintArray_some_eq (h : Host) (arr : NVSEArrayVar) (s : State) :
    PrintArray h (some arr) s =
      if arr.elems.length = 0 then Console_Print "Empty array" s
      else Console_Print ("Array Size >> " ++ toString arr.elems.length)
        (PrintArray.loop h arr.elems s) := by
  have hsize : toInt32 (GetArraySize arr) = (arr.elems.length : Int) :=
    toInt32_of_lt arr.size_lt
  simp only [PrintArray, hsize, GetElements, zip_keys_values, fmtD_natCast]
  by_cases h0 : arr.elems.length = 0
  · simp [h0]
  · have h0i : ¬ ((arr.elems.length : Int) = 0) := by exact_mod_cast h0
    simp [h0, h0i]

theorem PrintArray_prints (h : Host) (arrayPtr : Option NVSEArrayVar) (s : State) :
    (PrintArray h arrayPtr s).g_commandPrints =
      (s.g_commandPrints + (PrintArray h arrayPtr State.initial).console.length) % 2 ^ 32 := by
  cases arrayPtr with
  | none => simp [PrintArray, Console_Print, HookConsolePrint, State.initial]
  | some arr =>
    have hlen : (PrintArray h (some arr) State.initial).console.length =
        arr.elems.length + 1 := by
      rw [PrintArray_some_console]
      split_ifs with h0
      · simp [State.initial, h0]
      · simp [State.initial]
    rw [hlen, PrintArray_some_eq]
    split_ifs with h0
    · simp [Console_Print, HookConsolePrint, h0]
    · have hloop := PrintArray_loop_prints h arr.elems s
      simp only [Console_Print, HookConsolePrint]
      omega

/-- The print count after `PrintVar`: one more per line printed, modulo `2^32`. -/
theorem PrintVar_prints (h : Host) (value : Nat) (type : CommandReturnType) (s : State) :
    (PrintVar h value type s).g_commandPrints =
      (s.g_commandPrints + (PrintVar h value type State.initial).console.length) % 2 ^ 32 := by
  cases type
  case kRetnType_Form =>
    have hc := PrintFormById_console h (reinterpretUInt32 value) State.initial
    simp only [PrintVar, hc]
    simp only [PrintFormById, LookupFormByID]
    rw [PrintForm_prints]
    simp [State.initial]
  case kRetnType_Array =>
    have hc := PrintArray_console h (h.arrays (castUInt32 value))
      { State.initial with
        hostCalls := State.initial.hostCalls ++ [HostCall.lookupArray (castUInt32 value)] }
    simp only [PrintVar, PrintArrayById, LookupArrayByID]
    rw [hc, PrintArray_prints]
    simp [State.initial]
  all_goals
    simp [PrintVar, PrintFloat, PrintString, PrintUnknown, Console_Print, HookConsolePrint,
      GetStringVar, State.initial]

/-- The lines `PrintVar` appends do not depend on the state it starts from, and there is
at least one. -/
theorem PrintVar_console (h : Host) (value : Nat) (type : CommandReturnType) (s : State) :
    (PrintVar h value type s).console =
      s.console ++ (PrintVar h value type State.initial).console ∧
    (PrintVar h value type State.initial).console ≠ [] := by
  constructor
  · cases type
    case kRetnType_Form =>
      simp only [PrintVar, PrintFormById_console]
      simp [State.initial]
    case kRetnType_Array =>
      simp only [PrintVar, PrintArrayById, LookupArrayByID]
      have e1 := PrintArray_console h (h.arrays (castUInt32 value))
        { s with hostCalls := s.hostCalls ++ [HostCall.lookupArray (castUInt32 value)] }
      have e2 := PrintArray_console h (h.arrays (castUInt32 value))
        { State.initial with
          hostCalls := State.initial.hostCalls ++ [HostCall.lookupArray (castUInt32 value)] }
      rw [e1, e2]
      simp [State.initial]
    all_goals
      simp [PrintVar, PrintFloat, PrintString, PrintUnknown, Console_Print, HookConsolePrint, GetStringVar,
        State.initial]
  · have hlen := PrintVar_console_length h value type State.initial
    intro hnil
    rw [hnil] at hlen
    simp [State.initial] at hlen

/-- The console after `PrintResult` on the printing path. -/
theorem PrintResult_prints_console (h : Host) (commandInfo : CommandInfo) (result : Nat)
    (s : State) (hp : s.g_commandPrints = 0) (hn : isnan result = false) :
    ∃ type : CommandReturnType,
      (PrintResult h commandInfo result s).console =
        s.console ++ ("<Improved Console> " ++ commandInfo.longName) ::
          (PrintVar h result type State.initial).console := by
  refine ⟨if (h.forms (reinterpretUInt32 result)).isSome then kRetnType_Form
    else GetCmdReturnType h commandInfo, ?_⟩
  simp only [PrintResult, hp, hn, LookupFormByID]
  simp only [ne_eq, not_true_eq_false, if_false, Bool.false_eq_true]
  rw [(PrintVar_console h result _ _).1]
  simp [Console_Print, HookConsolePrint]


/-- The queries `PrintVar` records do not depend on the state it starts from. -/
theorem PrintVar_hostCalls (h : Host) (value : Nat) (type : CommandReturnType) (s : State) :
    (PrintVar h value type s).hostCalls =
      s.hostCalls ++ (PrintVar h value type State.initial).hostCalls := by
  cases type
  case kRetnType_Form =>
    simp only [PrintVar, PrintFormById, LookupFormByID]
    rw [PrintForm_frame, PrintForm_frame _ { State.initial with hostCalls := _ }]
    simp [State.initial]
  case kRetnType_Array =>
    simp [PrintVar, PrintArrayById, LookupArrayByID, PrintArray_hostCalls, State.initial]
  all_goals
    simp [PrintVar, PrintFloat, PrintString, PrintUnknown, Console_Print, HookConsolePrint, GetStringVar,
      State.initial]

/-! ## C15: bounded element rendering -/

/-- C15. `FormatElement` renders a nested array as `Array (ID <decimal id>)`, a string
wrapped in double quotes without escaping, and a form as `(FormID: <hex id>` followed by
`, EditorID: <e>` exactly when the editor id is non-empty, `, Name: <n>` exactly when the
name is non-empty, and `)`. It reads nothing of the host but the two-decimal conversion, so
it never enumerates a nested array; `PrintArray` on an array of `N` elements thus appends
`N + 1` lines and makes no registry query, whatever the elements are. -/
theorem FormatElement_bounded (h : Host) (array : Nat) (string : String) (form : TESForm)
    (arr : NVSEArrayVar) (s : State) :
    FormatElement h (Element.kDataType_Array array) =
      "Array (ID " ++ toString (array % 2 ^ 32) ++ ")" ∧
    FormatElement h (Element.kDataType_String string) = "\"" ++ string ++ "\"" ∧
    FormatElement h (Element.kDataType_Form form) =
      "(FormID: " ++ fmtHex form.refID ++
        (if form.editorId ≠ "" then ", EditorID: " ++ form.editorId else "") ++
        (if form.fullName ≠ "" then ", Name: " ++ form.fullName else "") ++ ")" ∧
    (∀ (h2 : Host) (element : Element), h2.fixed2 = h.fixed2 →
      FormatElement h2 element = FormatElement h element) ∧
    (emitted s (PrintArray h (some arr) s)).length = arr.elems.length + 1 ∧
    queried s (PrintArray h (some arr) s) = [] ∧
    emitted State.initial (PrintArray (sampleHost kRetnType_Array)
      (some ⟨[(Element.kDataType_Numeric 0, Element.kDataType_Array 5)], by decide⟩)
      State.initial) = ["(Key) >> 0.00; (Value) >> Array (ID 5)", "Array Size >> 1"] := by
  refine ⟨rfl, rfl, ?_, ?_, ?_, ?_, by decide⟩
  · simp only [FormatElement, String_length_pos_iff]
    split_ifs <;> simp [String.append_assoc]
  · intro h2 element hfix
    cases element <;> simp [FormatElement, hfix]
  · rw [emitted_of_append (PrintArray_some_console h arr s)]
    split_ifs with h0
    · simp [h0]
    · simp
  · exact queried_of_append (by simp [PrintArray_hostCalls])

/-- Element rendering does not look at the registries: the sample host and a host with
empty registries render a nested-array element alike. -/
theorem FormatElement_bounded_witness :
    (⟨fun _ => none, fun _ => "", fun _ => none, fun _ => kRetnType_Default,
        (sampleHost kRetnType_Array).fixed2⟩ : Host).fixed2 =
      (sampleHost kRetnType_Array).fixed2 ∧
    FormatElement ⟨fun _ => none, fun _ => "", fun _ => none, fun _ => kRetnType_Default,
        (sampleHost kRetnType_Array).fixed2⟩ (Element.kDataType_Array 5) =
      FormatElement (sampleHost kRetnType_Array) (Element.kDataType_Array 5) :=
  ⟨rfl,
    (FormatElement_bounded (sampleHost kRetnType_Array) 5 "a" sampleForm sampleArray
      State.initial).2.2.2.1 _ (Element.kDataType_Array 5) rfl⟩

/-! ## C16: the exact emission condition -/

/-- C16. `PrintResult` appends at least one console line exactly when the print count is
`0` and the raw result is not NaN. When it does, the first line is `<Improved Console> `
followed by the command's long name, and at least one value line follows, so at least two
lines are appended, whatever the effective type is. -/
theorem PrintResult_emission (h : Host) (commandInfo : CommandInfo) (result : Nat)
    (s : State) :
    (emitted s (PrintResult h commandInfo result s) ≠ [] ↔
      s.g_commandPrints = 0 ∧ isnan result = false) ∧
    (PrintResult h commandInfo result s).console =
      s.console ++ emitted s (PrintResult h commandInfo result s) ∧
    (s.g_commandPrints = 0 → isnan result = false →
      ∃ valueLines : List String, valueLines ≠ [] ∧
        emitted s (PrintResult h commandInfo result s) =
          ("<Improved Console> " ++ commandInfo.longName) :: valueLines ∧
        2 ≤ (emitted s (PrintResult h commandInfo result s)).length) := by
  by_cases hp : s.g_commandPrints = 0
  · cases hn : isnan result with
    | true =>
      have hc := (PrintResult_aborts_of_nan h commandInfo result s hn).1
      have hem : emitted s (PrintResult h commandInfo result s) = [] :=
        emitted_of_append (by simp [hc])
      refine ⟨by simp [hem], by simp [hem, hc], ?_⟩
      intro _ hfalse
      cases hfalse
    | false =>
      obtain ⟨type, hc⟩ := PrintResult_prints_console h commandInfo result s hp hn
      have hne := (PrintVar_console h result type State.initial).2
      have hem := emitted_of_append hc
      refine ⟨by simp [hem, hp], by rw [hem, hc], ?_⟩
      intro _ _
      refine ⟨_, hne, hem, ?_⟩
      rw [hem]
      have hpos := List.length_pos.mpr hne
      simp only [List.length_cons]
      omega
  · have hc := (PrintResult_aborts_of_prints h commandInfo result s hp).1
    have hem : emitted s (PrintResult h commandInfo result s) = [] :=
      emitted_of_append (by simp [hc])
    refine ⟨by simp [hem, hp], by simp [hem, hc], ?_⟩
    intro h0
    exact absurd h0 hp

/-- The emission condition at a sample input: the number `5.0` with declared type
`Default` gives the header and one value line. -/
theorem PrintResult_emission_witness :
    State.initial.g_commandPrints = 0 ∧ isnan 0x4014000000000000 = false ∧
    ∃ valueLines : List String, valueLines ≠ [] ∧
      emitted State.initial (PrintResult (sampleHost kRetnType_Default) sampleCommand
          0x4014000000000000 State.initial) =
        ("<Improved Console> " ++ sampleCommand.longName) :: valueLines ∧
      2 ≤ (emitted State.initial (PrintResult (sampleHost kRetnType_Default) sampleCommand
          0x4014000000000000 State.initial)).length :=
  ⟨rfl, by decide,
    (PrintResult_emission (sampleHost kRetnType_Default) sampleCommand 0x4014000000000000
      State.initial).2.2 rfl (by decide)⟩

/-! ## C17: last-result bookkeeping -/

/-- On the printing path `PrintResult` is the header print followed by `PrintVar` with the
effective type. -/
theorem PrintResult_prints_eq (h : Host) (commandInfo : CommandInfo) (result : Nat)
    (s : State) (hp : s.g_commandPrints = 0) (hn : isnan result = false) :
    PrintResult h commandInfo result s =
      PrintVar h result
        (if (h.forms (reinterpretUInt32 result)).isSome then kRetnType_Form
          else GetCmdReturnType h commandInfo)
        (Console_Print ("<Improved Console> " ++ commandInfo.longName)
          (LookupFormByID h (reinterpretUInt32 result)
            { s with
              g_commandWasFunction := true
              g_lastReturnType := GetCmdReturnType h commandInfo
              g_lastCommandWasSet := false
              g_lastResultValue := result }).2) := by
  simp only [PrintResult, hp, hn, LookupFormByID]
  simp

/-- C17, as stated, fails on the printing path: every line `PrintResult` prints returns
through `HookConsolePrint`, so with print count `0`, declared type `Default` and the
number `5.0` the count ends at `2` (header and value line), and with the raw value `0x14`
aliasing the live form it ends at `3`. -/
theorem PrintResult_bookkeeping_counterexample :
    State.initial.g_commandPrints = 0 ∧ isnan 0x4014000000000000 = false ∧
    (PrintResult (sampleHost kRetnType_Default) sampleCommand 0x4014000000000000
      State.initial).console = ["<Improved Console> GetSelf", "(Float) >> 5.00"] ∧
    (PrintResult (sampleHost kRetnType_Default) sampleCommand 0x4014000000000000
      State.initial).g_commandPrints = 2 ∧
    (PrintResult (sampleHost kRetnType_Default) sampleCommand 0x4014000000000000
      State.initial).g_commandPrints ≠ State.initial.g_commandPrints ∧
    (PrintResult (sampleHost kRetnType_Default) sampleCommand 0x14
      State.initial).g_commandPrints = 3 := by
  decide

/-- C17, amended. On every path of `PrintResult` (aborted on a non-zero print count,
aborted on NaN, or printed) the globals end as `g_commandWasFunction = true`,
`g_lastCommandWasSet = false`, `g_lastResultValue` the raw result and `g_lastReturnType`
the declared return type, also when the live-form override makes the effective type
`Form`; the call-confirmed flag is never changed. The print count is unchanged on the two
abort paths; on the printing path, where it was `0`, every line printed is counted by
`HookConsolePrint`, so it ends as the number of lines printed (at least two), modulo
`2^32`. -/
theorem PrintResult_bookkeeping (h : Host) (commandInfo : CommandInfo) (result : Nat)
    (s : State) :
    (PrintResult h commandInfo result s).g_commandWasFunction = true ∧
    (PrintResult h commandInfo result s).g_lastCommandWasSet = false ∧
    (PrintResult h commandInfo result s).g_lastResultValue = result ∧
    (PrintResult h commandInfo result s).g_lastReturnType = GetCmdReturnType h commandInfo ∧
    (PrintResult h commandInfo result s).g_cmdCalled = s.g_cmdCalled ∧
    (s.g_commandPrints ≠ 0 ∨ isnan result = true →
      (PrintResult h commandInfo result s).g_commandPrints = s.g_commandPrints) ∧
    (s.g_commandPrints = 0 → isnan result = false →
      (PrintResult h commandInfo result s).g_commandPrints =
        (emitted s (PrintResult h commandInfo result s)).length % 2 ^ 32 ∧
      2 ≤ (emitted s (PrintResult h commandInfo result s)).length) ∧
    ((PrintResult (sampleHost kRetnType_String) sampleCommand 0x14 State.initial).g_lastReturnType
        = kRetnType_String ∧
      (PrintResult (sampleHost kRetnType_String) sampleCommand 0x14 State.initial).console =
        ["<Improved Console> GetSelf", "(Form ID) >> 14", "(Editor ID) >> MyNPC"]) := by
  have hmain : (PrintResult h commandInfo result s).g_commandWasFunction = true ∧
      (PrintResult h commandInfo result s).g_lastCommandWasSet = false ∧
      (PrintResult h commandInfo result s).g_lastResultValue = result ∧
      (PrintResult h commandInfo result s).g_lastReturnType = GetCmdReturnType h commandInfo ∧
      (PrintResult h commandInfo result s).g_cmdCalled = s.g_cmdCalled := by
    by_cases hp : s.g_commandPrints = 0
    · cases hn : isnan result with
      | true => simp [PrintResult, hp, hn, PrintLog]
      | false =>
        rw [PrintResult_prints_eq h commandInfo result s hp hn, PrintVar_frame]
        simp [Console_Print, HookConsolePrint, LookupFormByID]
    · simp [PrintResult, hp, PrintLog]
  obtain ⟨h1, h2, h3, h4, h5⟩ := hmain
  refine ⟨h1, h2, h3, h4, h5, ?_, ?_, by decide, by decide⟩
  · intro habort
    by_cases hp : s.g_commandPrints = 0
    · rcases habort with hne | hn
      · exact absurd hp hne
      · simp [PrintResult, hp, hn, PrintLog]
    · simp [PrintResult, hp, PrintLog]
  · intro hp hn
    have hcons : (PrintResult h commandInfo result s).console =
        s.console ++ ("<Improved Console> " ++ commandInfo.longName) ::
          (PrintVar h result
            (if (h.forms (reinterpretUInt32 result)).isSome then kRetnType_Form
              else GetCmdReturnType h commandInfo) State.initial).console := by
      rw [PrintResult_prints_eq h commandInfo result s hp hn, (PrintVar_console h result _ _).1]
      simp [Console_Print, HookConsolePrint, LookupFormByID]
    have hem := emitted_of_append hcons
    have hcount : (PrintResult h commandInfo result s).g_commandPrints =
        (1 + (PrintVar h result
            (if (h.forms (reinterpretUInt32 result)).isSome then kRetnType_Form
              else GetCmdReturnType h commandInfo) State.initial).console.length) % 2 ^ 32 := by
      rw [PrintResult_prints_eq h commandInfo result s hp hn, PrintVar_prints]
      simp [Console_Print, HookConsolePrint, LookupFormByID, hp]
    have hpos := List.length_pos.mpr (PrintVar_console h result
      (if (h.forms (reinterpretUInt32 result)).isSome then kRetnType_Form
        else GetCmdReturnType h commandInfo) State.initial).2
    rw [hem, hcount]
    simp only [List.length_cons]
    constructor
    · congr 1
      omega
    · omega

/-- The amended bookkeeping at a sample input on the printing path: the number `5.0` with
declared type `Default`. -/
theorem PrintResult_bookkeeping_witness :
    State.initial.g_commandPrints = 0 ∧ isnan 0x4014000000000000 = false ∧
    (PrintResult (sampleHost kRetnType_Default) sampleCommand 0x4014000000000000
        State.initial).g_commandPrints =
      (emitted State.initial (PrintResult (sampleHost kRetnType_Default) sampleCommand
        0x4014000000000000 State.initial)).length % 2 ^ 32 ∧
    2 ≤ (emitted State.initial (PrintResult (sampleHost kRetnType_Default) sampleCommand
        0x4014000000000000 State.initial)).length :=
  ⟨rfl, by decide,
    (PrintResult_bookkeeping (sampleHost kRetnType_Default) sampleCommand 0x4014000000000000
      State.initial).2.2.2.2.2.2.1 rfl (by decide)⟩

/-! ## C18: handle derivation by type -/

/-- C18. The live-form override check and the `Form` and Unknown renderings take the low
32 bits of the double's encoding; the `String` and `Array` renderings take the double's
numeric value truncated to an unsigned 32-bit integer. For the raw value `5.0` the low 32
bits are `0` and the truncation is `5`: the override check queries form handle `0` while
`PrintVar` with type `Array` looks up array id `5`. -/
theorem handle_derivation (h : Host) (commandInfo : CommandInfo) (value : Nat) (s : State)
    (hprints : s.g_commandPrints = 0) (hnan : isnan value = false) :
    (queried s (PrintResult h commandInfo value s)).head? =
      some (HostCall.lookupForm (value % 2 ^ 32)) ∧
    queried s (PrintVar h value kRetnType_Form s) = [HostCall.lookupForm (value % 2 ^ 32)] ∧
    emitted s (PrintVar h value kRetnType_Ambiguous s) =
      ["(Unknown) >> " ++ h.fixed2 value ++ " / " ++ fmtD (toInt32 (value % 2 ^ 32))] ∧
    queried s (PrintVar h value kRetnType_String s) =
      [HostCall.getStringVar (castUInt32 value)] ∧
    queried s (PrintVar h value kRetnType_Array s) =
      [HostCall.lookupArray (castUInt32 value)] ∧
    (reinterpretUInt32 0x4014000000000000 = 0 ∧ castUInt32 0x4014000000000000 = 5 ∧
      reinterpretUInt32 0x4014000000000000 ≠ castUInt32 0x4014000000000000) ∧
    (castUInt32 0x4017999999999999 = 5 ∧ castUInt32 0x3FE0000000000000 = 0 ∧
      castUInt32 0x41EFFFFFFFE00000 = 4294967295 ∧
      reinterpretUInt32 0x4017999999999999 = 0x99999999) ∧
    queried State.initial (PrintResult (sampleHost kRetnType_Array) sampleCommand
      0x4014000000000000 State.initial) = [HostCall.lookupForm 0, HostCall.lookupArray 5] := by
  refine ⟨?_, ?_, ?_, ?_, ?_, by decide, by decide, by decide⟩
  · have hq : ∃ rest, (PrintResult h commandInfo value s).hostCalls =
        s.hostCalls ++ HostCall.lookupForm (value % 2 ^ 32) :: rest := by
      refine ⟨(PrintVar h value (if (h.forms (reinterpretUInt32 value)).isSome then
        kRetnType_Form else GetCmdReturnType h commandInfo) State.initial).hostCalls, ?_⟩
      simp only [PrintResult, hprints, hnan, LookupFormByID]
      simp only [ne_eq, not_true_eq_false, if_false, Bool.false_eq_true]
      rw [PrintVar_hostCalls]
      simp [Console_Print, HookConsolePrint, reinterpretUInt32]
    obtain ⟨rest, hrest⟩ := hq
    rw [queried_of_append hrest]
    rfl
  · exact queried_of_append (by
      simp only [PrintVar, PrintFormById, LookupFormByID]
      rw [PrintForm_frame]
      simp [reinterpretUInt32])
  · exact emitted_of_append (by simp [PrintVar, PrintUnknown, Console_Print, HookConsolePrint, reinterpretUInt32])
  · exact queried_of_append (by simp [PrintVar, GetStringVar, PrintString, Console_Print, HookConsolePrint])
  · exact queried_of_append (by
      simp [PrintVar, PrintArrayById, LookupArrayByID, PrintArray_hostCalls])

/-- Handle derivation at the sample input `5.0` with declared type `Array`. -/
theorem handle_derivation_witness :
    State.initial.g_commandPrints = 0 ∧ isnan 0x4014000000000000 = false ∧
    (queried State.initial (PrintResult (sampleHost kRetnType_Array) sampleCommand
        0x4014000000000000 State.initial)).head? =
      some (HostCall.lookupForm (0x4014000000000000 % 2 ^ 32)) ∧
    queried State.initial (PrintVar (sampleHost kRetnType_Array) 0x4014000000000000
        kRetnType_Array State.initial) =
      [HostCall.lookupArray (castUInt32 0x4014000000000000)] :=
  ⟨rfl, by decide,
    (handle_derivation (sampleHost kRetnType_Array) sampleCommand 0x4014000000000000
      State.initial rfl (by decide)).1,
    (handle_derivation (sampleHost kRetnType_Array) sampleCommand 0x4014000000000000
      State.initial rfl (by decide)).2.2.2.2.1⟩

end ImprovedConsole
